import Mathlib

/-!
Shallow embedding of the Flowmatics agent backend (Python) in Lean 4.

Source files modelled:
* `backend/services/execution_service.py` — code validator, sandboxed
  executor wrapper, dataframe diff engine;
* `backend/backend.py` — the duplicated validator / diff engine and the
  signal-based executor wrapper;
* `backend/models.py` — `AgentState`, `UndoEntry`, `push_undo`, `undo`;
* `backend/storage.py` — `DiskStore` (handles are fresh unique keys);
* `backend/services/agent_service.py` — the orchestrator nodes and
  `run_cycle`;
* `backend/api.py` — the instruction classification performed before the
  transition loop.

Modelling conventions:
* pandas `DataFrame` values become a `cols × rows` table of `Cell`s, where
  `Cell.na` stands for a missing value (NaN / None);
* `DiskStore.write_df` generates a fresh uuid key in Python; keys are
  modelled as `Nat` indices into the store's table list, so a freshly
  written key equals the current store size and is distinct from every
  existing key;
* running user Python code inside the worker is opaque to the embedding;
  its outcome (exception / df missing / wrong type / new dataframe, plus
  captured stdout) is an explicit `ScriptOutcome` parameter, and the
  supervision outcome (timeout, silent worker death, wrapper error) is a
  `SupervisionEvent` parameter;
* LLM completions and cache hits are external capabilities; each
  consultation consumes one `LLMEvent` from the environment;
* Python exception message texts produced by libraries (json decode
  errors, FileNotFoundError texts) are abstracted to fixed strings; the
  control flow that consumes them is modelled exactly.
-/

namespace Flowmatics

/-- One pandas cell. `na` is a missing value (NaN); two missing values
compare as equal in the diff engine's mask. -/
inductive Cell where
  | na : Cell
  | int : Int → Cell
  | str : String → Cell
deriving DecidableEq

/-- Python `str(value)` rendering of a cell, used in diff examples. -/
def Cell.render : Cell → String
  | .na => "nan"
  | .int i => toString i
  | .str s => s

/-- A pandas DataFrame: column names plus row-major cell data. -/
structure DataFrame where
  cols : List String
  rows : List (List Cell)
deriving DecidableEq

/-- Model of `df.shape` — (row count, column count). -/
def DataFrame.shape (df : DataFrame) : Nat × Nat :=
  (df.rows.length, df.cols.length)

/-- The configuration fields (from `config.py`) that the modelled code
reads: `max_code_length` (default 10000) and
`code_exec_timeout_seconds` (default 5). -/
structure Settings where
  max_code_length : Nat
  code_exec_timeout_seconds : Nat
deriving DecidableEq

/-- The default settings instance from `config.py`. -/
def default_settings : Settings :=
  { max_code_length := 10000, code_exec_timeout_seconds := 5 }

/-- Python `str.lower()` (ASCII-faithful). -/
def pyLower (s : String) : String :=
  ⟨s.data.map Char.toLower⟩

/-- Boolean prefix test on character lists (models Python string
matching primitives). -/
def listPrefixB : List Char → List Char → Bool
  | [], _ => true
  | _ :: _, [] => false
  | a :: as, b :: bs => a = b && listPrefixB as bs

/-- Boolean substring test: Python's `needle in hay`. -/
def strIn (needle : List Char) : List Char → Bool
  | [] => needle.isEmpty
  | c :: t => listPrefixB needle (c :: t) || strIn needle t

/-- The rejection message for over-long code,
`f"Code too long (max {settings.max_code_length} characters)"`. -/
def too_long_msg (st : Settings) : String :=
  let n := st.max_code_length
  "Code too long (max " ++ toString n ++ " characters)"

/-- Outcome of `exec(code, safe_globals, safe_locals)` inside the worker
(`_execute_script` / the `backend.py` in-process variant): either the code
raised (with the formatted `f"{type}: {msg}"` text), or it completed and
left `df` either unbound, bound to a non-DataFrame, or bound to a
DataFrame. `out` is the stdout captured up to that point. -/
inductive ScriptOutcome where
  | raises (msg : String) (out : String)
  | completes (dfVar : Option (Option DataFrame)) (out : String)
deriving DecidableEq

namespace ExecutionService

/-- The fixed denylist from `execution_service.validate_code`, in source
order; each entry is (pattern, rejection message). -/
def dangerous_patterns : List (String × String) :=
  [("import os", "OS module access not allowed"),
   ("import sys", "System module access not allowed"),
   ("import subprocess", "Subprocess module not allowed"),
   ("import socket", "Network access not allowed"),
   ("__import__", "Dynamic imports not allowed"),
   ("eval(", "eval() not allowed"),
   ("exec(", "exec() not allowed"),
   ("compile(", "compile() not allowed"),
   ("open(", "File operations not allowed"),
   ("file(", "File operations not allowed"),
   ("input(", "User input not allowed"),
   ("raw_input(", "User input not allowed")]

/-- The `for pattern, message in dangerous_patterns:` loop: first matching
pattern wins and supplies the message. -/
def scan_patterns (codeLower : List Char) : List (String × String) → Option String
  | [] => none
  | (p, m) :: rest =>
    if strIn p.data codeLower then some m else scan_patterns codeLower rest

/-- Model of `execution_service.validate_code`: length gate, then the
case-insensitive substring scan over the denylist. -/
def validate_code (st : Settings) (code : String) : Bool × String :=
  if code.length > st.max_code_length then
    (false, too_long_msg st)
  else
    match scan_patterns (pyLower code).data dangerous_patterns with
    | some m => (false, m)
    | none => (true, "")

/-- The `f"Execution timed out after {...} seconds"` message. -/
def timeout_msg (st : Settings) : String :=
  let n := st.code_exec_timeout_seconds
  "Execution timed out after " ++ toString n ++ " seconds"

/-- Supervision outcome of the worker process in
`execution_service.exec_code`: the join timed out (`p.is_alive()`), the
worker died without populating the result dict (`success` stayed `False`
with no error recorded), the wrapper itself raised, or the worker
finished running the script with some `ScriptOutcome`. -/
inductive SupervisionEvent where
  | timeout
  | died
  | wrapperError (msg : String)
  | completed (o : ScriptOutcome)
deriving DecidableEq

/-- Model of `execution_service.exec_code`: validate, then supervise the worker.
Returns `(result_df, error_message, stdout_output)`; note that every
failure path returns the *input* dataframe in the first slot. -/
def exec_code (st : Settings) (ev : SupervisionEvent) (code : String)
    (df : DataFrame) : DataFrame × Option String × String :=
  let v := validate_code st code
  if v.1 = false then
    (df, some v.2, "")
  else
    match ev with
    | .timeout => (df, some (timeout_msg st), "")
    | .died => (df, some "Unknown execution error", "")
    | .wrapperError m => (df, some m, "")
    | .completed (.raises m out) => (df, some m, out)
    | .completed (.completes none out) =>
        (df, some "Code must define 'df' variable", out)
    | .completed (.completes (some none) out) =>
        (df, some "Variable 'df' must be a DataFrame", out)
    | .completed (.completes (some (some d)) out) => (d, none, out)

/-- One cell of the change mask `ne = (df_old != df_new) & ~(isna & isna)`:
two missing values compare equal; otherwise pandas inequality (a missing
value differs from every present value). -/
def ne_cell : Cell → Cell → Bool
  | .na, .na => false
  | a, b => a ≠ b

/-- The full change mask, row-major. -/
def changed_mask (old new : DataFrame) : List (List Bool) :=
  List.zipWith (fun r1 r2 => List.zipWith ne_cell r1 r2) old.rows new.rows

/-- Model of `ne.sum().sum()` — number of changed cells. -/
def changed_count (old new : DataFrame) : Nat :=
  ((changed_mask old new).map (fun r => r.count true)).sum

/-- Model of `np.where(ne)` in row-major order: positions of changed cells. -/
def changed_positions (old new : DataFrame) : List (Nat × Nat) :=
  ((changed_mask old new).enum.map
    (fun p => p.2.enum.filterMap
      (fun q => if q.2 then some (p.1, q.1) else none))).flatten

/-- Cell lookup by position (both positions produced by `changed_positions`
are in range, so the default is never reached on those). -/
def cell_at (df : DataFrame) (i j : Nat) : Cell :=
  ((df.rows.get? i).bind (fun r => r.get? j)).getD .na

/-- Model of `f"(rows, cols)"` — Python's rendering of `df.shape`. -/
def shape_str (df : DataFrame) : String :=
  let r := df.rows.length
  let c := df.cols.length
  "(" ++ toString r ++ ", " ++ toString c ++ ")"

/-- The shape-change statement. -/
def shape_change_stmt (old new : DataFrame) : String :=
  let s1 := shape_str old
  let s2 := shape_str new
  "**Shape Change:** `" ++ s1 ++ "` -> `" ++ s2 ++ "`"

/-- The signed row-delta statement `f"Rows: {'+' if d > 0 else ''}{d}"`. -/
def row_delta_stmt (d : Int) : String :=
  let sign := if d > 0 then "+" else ""
  "Rows: " ++ sign ++ toString d

/-- The signed column-delta statement. -/
def col_delta_stmt (d : Int) : String :=
  let sign := if d > 0 then "+" else ""
  "Columns: " ++ sign ++ toString d

/-- The changed-cell-count statement. -/
def values_changed_stmt (n : Nat) : String :=
  "**Values Changed:** " ++ toString n ++ " cells modified."

/-- One example line `f"- Row {r}, `{col}`: `{old}` -> `{new}`"`. -/
def example_stmt (old new : DataFrame) (pos : Nat × Nat) : String :=
  let i := pos.1
  let cname := (old.cols.get? pos.2).getD ""
  let vOld := (cell_at old pos.1 pos.2).render
  let vNew := (cell_at new pos.1 pos.2).render
  "- Row " ++ toString i ++ ", `" ++ cname ++ "`: `" ++ vOld ++ "` -> `" ++ vNew ++ "`"

/-- The sample-changes statement (up to 5 examples, newline-joined). -/
def sample_changes_stmt (old new : DataFrame) : String :=
  let ex := ((changed_positions old new).take 5).map (example_stmt old new)
  "\n**Sample Changes:**\n" ++ String.intercalate "\n" ex

/-- The size-ceiling notice. -/
def too_large_stmt : String :=
  "*(Data too large for detailed cell-by-cell comparison)*"

/-- Added columns: `set(df_new.columns) - set(df_old.columns)` (Python set
iteration order is unspecified; modelled as first-occurrence order). -/
def new_cols_of (old new : DataFrame) : List String :=
  new.cols.eraseDups.filter (fun c => c ∉ old.cols)

/-- Removed columns: `set(df_old.columns) - set(df_new.columns)`. -/
def removed_cols_of (old new : DataFrame) : List String :=
  old.cols.eraseDups.filter (fun c => c ∉ new.cols)

/-- The added-columns statement. -/
def new_cols_stmt (cs : List String) : String :=
  let j := String.intercalate ", " cs
  "**New Columns:** " ++ j

/-- The removed-columns statement. -/
def removed_cols_stmt (cs : List String) : String :=
  let j := String.intercalate ", " cs
  "**Removed Columns:** " ++ j

/-- The `changes` list built by `execution_service.compare_dataframes`
before the final `"\n\n".join`. -/
def compare_changes (dfOld : Option DataFrame) (dfNew : DataFrame) : List String :=
  match dfOld with
  | none => ["New dataframe created."]
  | some old =>
    let changes1 : List String :=
      if old.shape ≠ dfNew.shape then
        let dr : Int := (dfNew.rows.length : Int) - (old.rows.length : Int)
        let dc : Int := (dfNew.cols.length : Int) - (old.cols.length : Int)
        [shape_change_stmt old dfNew]
          ++ (if dr ≠ 0 then [row_delta_stmt dr] else [])
          ++ (if dc ≠ 0 then [col_delta_stmt dc] else [])
      else []
    let changes2 : List String :=
      if old.shape = dfNew.shape ∧ old.cols = dfNew.cols then
        if old.rows.length > 10000 then
          [too_large_stmt]
        else
          let cnt := changed_count old dfNew
          if cnt > 0 then
            let examples := ((changed_positions old dfNew).take 5).map
              (example_stmt old dfNew)
            [values_changed_stmt cnt]
              ++ (if examples ≠ [] then [sample_changes_stmt old dfNew] else [])
          else
            if changes1 = [] then ["No changes detected."] else []
      else
        let newCols := new_cols_of old dfNew
        let removedCols := removed_cols_of old dfNew
        (if newCols ≠ [] then [new_cols_stmt newCols] else [])
          ++ (if removedCols ≠ [] then [removed_cols_stmt removedCols] else [])
    changes1 ++ changes2

/-- Model of `execution_service.compare_dataframes` — the joined markdown summary. -/
def compare_dataframes (dfOld : Option DataFrame) (dfNew : DataFrame) : String :=
  String.intercalate "\n\n" (compare_changes dfOld dfNew)

end ExecutionService

namespace Backend

/-- The denylist from `backend.validate_code` (the second, duplicated
implementation in `backend.py`), in source order. -/
def dangerous_patterns : List (String × String) :=
  [("import os", "OS module access not allowed"),
   ("import sys", "System module access not allowed"),
   ("import subprocess", "Subprocess module not allowed"),
   ("import socket", "Network access not allowed"),
   ("__import__", "Dynamic imports not allowed"),
   ("eval(", "eval() not allowed"),
   ("exec(", "exec() not allowed"),
   ("compile(", "compile() not allowed"),
   ("open(", "File operations not allowed"),
   ("file(", "File operations not allowed"),
   ("input(", "User input not allowed"),
   ("raw_input(", "User input not allowed")]

/-- The scanning loop of `backend.validate_code`. -/
def scan_patterns (codeLower : List Char) : List (String × String) → Option String
  | [] => none
  | (p, m) :: rest =>
    if strIn p.data codeLower then some m else scan_patterns codeLower rest

/-- Model of `backend.validate_code`: same length gate and denylist scan as the
services-module implementation. -/
def validate_code (st : Settings) (code : String) : Bool × String :=
  if code.length > st.max_code_length then
    (false, too_long_msg st)
  else
    match scan_patterns (pyLower code).data dangerous_patterns with
    | some m => (false, m)
    | none => (true, "")

/-- The `changes` list built by `backend.compare_dataframes` (duplicated
diff engine in `backend.py`; same statements and control flow as the
services-module implementation). -/
def compare_changes (dfOld : Option DataFrame) (dfNew : DataFrame) : List String :=
  match dfOld with
  | none => ["New dataframe created."]
  | some old =>
    let changes1 : List String :=
      if old.shape ≠ dfNew.shape then
        let dr : Int := (dfNew.rows.length : Int) - (old.rows.length : Int)
        let dc : Int := (dfNew.cols.length : Int) - (old.cols.length : Int)
        [ExecutionService.shape_change_stmt old dfNew]
          ++ (if dr ≠ 0 then [ExecutionService.row_delta_stmt dr] else [])
          ++ (if dc ≠ 0 then [ExecutionService.col_delta_stmt dc] else [])
      else []
    let changes2 : List String :=
      if old.shape = dfNew.shape ∧ old.cols = dfNew.cols then
        if old.rows.length > 10000 then
          [ExecutionService.too_large_stmt]
        else
          let cnt := ExecutionService.changed_count old dfNew
          if cnt > 0 then
            let examples := ((ExecutionService.changed_positions old dfNew).take 5).map
              (ExecutionService.example_stmt old dfNew)
            [ExecutionService.values_changed_stmt cnt]
              ++ (if examples ≠ [] then [ExecutionService.sample_changes_stmt old dfNew] else [])
          else
            if changes1 = [] then ["No changes detected."] else []
      else
        let newCols := ExecutionService.new_cols_of old dfNew
        let removedCols := ExecutionService.removed_cols_of old dfNew
        (if newCols ≠ [] then [ExecutionService.new_cols_stmt newCols] else [])
          ++ (if removedCols ≠ [] then [ExecutionService.removed_cols_stmt removedCols] else [])
    changes1 ++ changes2

/-- Model of `backend.compare_dataframes` — the joined markdown summary. -/
def compare_dataframes (dfOld : Option DataFrame) (dfNew : DataFrame) : String :=
  String.intercalate "\n\n" (compare_changes dfOld dfNew)

/-- Supervision outcome for the in-process `backend.exec_code` variant:
either the `signal`-based time limit fired (`TimeoutException` caught,
with the stdout captured so far), or the script ran to an outcome. -/
inductive BackendExecEvent where
  | timeout (partialOut : String)
  | completed (o : ScriptOutcome)
deriving DecidableEq

/-- Model of `backend.exec_code`: validate, then run under `time_limit`. Every
failure path returns the input dataframe in the first slot. The
`TimeoutException` text is `"Code execution timed out"`. -/
def exec_code (st : Settings) (ev : BackendExecEvent) (code : String)
    (df : DataFrame) : DataFrame × Option String × String :=
  let v := validate_code st code
  if v.1 = false then
    (df, some v.2, "")
  else
    match ev with
    | .timeout out => (df, some "Code execution timed out", out)
    | .completed (.raises m out) => (df, some m, out)
    | .completed (.completes none out) =>
        (df, some "Code must define 'df' variable", out)
    | .completed (.completes (some none) out) =>
        (df, some "Variable 'df' must be a DataFrame", out)
    | .completed (.completes (some (some d)) out) => (d, none, out)

end Backend

/-- The content store (`storage.DiskStore`). Python keys are fresh
`uuid4` strings; modelled as indices into the list of stored tables, so
`write_df` always returns a key distinct from every previously issued
one. -/
structure DiskStore where
  tables : List DataFrame
deriving DecidableEq

/-- Model of `DiskStore.write_df`: store the table, return the fresh key. -/
def DiskStore.write_df (st : DiskStore) (df : DataFrame) : Nat × DiskStore :=
  (st.tables.length, ⟨st.tables ++ [df]⟩)

/-- Model of `DiskStore.get_df`: `none` models the `FileNotFoundError` raised for
an unknown key. -/
def DiskStore.get_df (st : DiskStore) (key : Nat) : Option DataFrame :=
  st.tables[key]?

/-- Model of `models.UndoEntry` — one undo checkpoint. -/
structure UndoEntry where
  description : String
  snapshot_key : Nat
deriving DecidableEq

/-- The `next_node` control-state enumeration of `AgentState`
(`Literal["upload", "eda", "human_input", "execute", "undo", "export",
"END"]`). `export` is a Lean keyword, hence the constructor `export'`. -/
inductive Node where
  | upload
  | eda
  | human_input
  | execute
  | undo
  | export'
  | END
deriving DecidableEq

/-- The last emitted tool-call descriptor `{name, args}` with string
arguments. -/
structure ToolCall where
  name : String
  args : List (String × String)
deriving DecidableEq

/-- Model of `models.AgentState`. Python's empty-string handles (`work_id = ""`)
are modelled as `none`. -/
structure AgentState where
  raw_id : Option Nat := none
  work_id : Option Nat := none
  history : List UndoEntry := []
  next_node : Node := .upload
  user_message : String := ""
  error : Option String := none
  export_filename : String := "cleaned.csv"
  retry_count : Nat := 0
  MAX_RETRIES : Nat := 3
  last_tool : Option ToolCall := none
deriving DecidableEq

/-- Model of `AgentState.push_undo`: effective only when a working handle exists
and its table can be read; duplicates the current table under a fresh key
and appends the `UndoEntry`. Failures of the store reads/writes are
swallowed (`try/except` with a log line). -/
def AgentState.push_undo (st : DiskStore) (s : AgentState) (desc : String) :
    DiskStore × AgentState :=
  match s.work_id with
  | none => (st, s)
  | some h =>
    match st.get_df h with
    | none => (st, s)
    | some df =>
      let (key, st') := st.write_df df
      (st', { s with history := s.history ++ [⟨desc, key⟩] })

/-- Model of `AgentState.undo`: pop the most recent entry and restore its snapshot
key as the working handle; returns the user-visible message. -/
def AgentState.undo (s : AgentState) : AgentState × String :=
  match s.history.getLast? with
  | none => (s, "Nothing to undo.")
  | some e =>
    let d := e.description
    ({ s with history := s.history.dropLast, work_id := some e.snapshot_key },
     "Undone: " ++ d)

/-- A parsed JSON value (`json.loads` result). Numbers keep their source
literal; object fields keep source order. -/
inductive Json where
  | null
  | bool (b : Bool)
  | num (lit : String)
  | str (s : String)
  | arr (xs : List Json)
  | obj (fields : List (String × Json))

mutual

/-- Python `str(value)` rendering of a decoded JSON value (reached only
when a non-string value is interpolated into a message). -/
def Json.render : Json → String
  | .null => "None"
  | .bool true => "True"
  | .bool false => "False"
  | .num lit => lit
  | .str s => s
  | .arr xs => "[" ++ Json.renderList xs ++ "]"
  | .obj fs => "\x7b" ++ Json.renderFields fs ++ "\x7d"

/-- Comma-joined rendering of a JSON array's items. -/
def Json.renderList : List Json → String
  | [] => ""
  | [x] => Json.render x
  | x :: xs => Json.render x ++ ", " ++ Json.renderList xs

/-- Comma-joined rendering of a JSON object's fields. -/
def Json.renderFields : List (String × Json) → String
  | [] => ""
  | [(k, v)] => "\x27" ++ k ++ "\x27: " ++ Json.render v
  | (k, v) :: fs => "\x27" ++ k ++ "\x27: " ++ Json.render v ++ ", " ++ Json.renderFields fs

end

/-- Dictionary lookup with Python `json` semantics: a duplicated key keeps
its last value. -/
def lookupLast (fs : List (String × Json)) (k : String) : Option Json :=
  match fs with
  | [] => none
  | (k', v) :: t =>
    match lookupLast t k with
    | some r => some r
    | none => if k' = k then some v else none

/-- Model of `res.get(key)` — `none` when `res` is not a dict or lacks the key. -/
def Json.getField : Json → String → Option Json
  | .obj fs, k => lookupLast fs k
  | _, _ => none

/-- Model of `res.get(key, default)` coerced to the string actually interpolated. -/
def str_field (r : Json) (k dflt : String) : String :=
  match r.getField k with
  | some (.str s) => s
  | some j => j.render
  | none => dflt

/-- Skip JSON whitespace. -/
def skipWs : List Char → List Char
  | [] => []
  | c :: t => if c = ' ' ∨ c = '\n' ∨ c = '\t' ∨ c = '\r' then skipWs t else c :: t

/-- Translate a JSON string escape character. -/
def escChar : Char → Char
  | 'n' => '\n'
  | 't' => '\t'
  | 'r' => '\r'
  | c => c

/-- Parse a JSON string body after the opening quote; returns the decoded
characters and the remainder after the closing quote. -/
def parseStringBody : List Char → Option (List Char × List Char)
  | [] => none
  | '"' :: t => some ([], t)
  | '\\' :: c :: t =>
    match parseStringBody t with
    | some (acc, rest) => some (escChar c :: acc, rest)
    | none => none
  | c :: t =>
    match parseStringBody t with
    | some (acc, rest) => some (c :: acc, rest)
    | none => none

/-- Parse a JSON number literal (optional sign, digits, optional
fraction; exponent forms are not needed by any modelled input). -/
def parseNumber (l : List Char) : Option (List Char × List Char) :=
  let (neg, l1) := match l with
    | '-' :: t => (['-'], t)
    | _ => (([] : List Char), l)
  let (ds, l2) := l1.span Char.isDigit
  if ds.isEmpty then none
  else
    let (frac, l3) := match l2 with
      | '.' :: t =>
        let (fs, r) := t.span Char.isDigit
        if fs.isEmpty then (([] : List Char), l2) else ('.' :: fs, r)
      | _ => (([] : List Char), l2)
    some (neg ++ ds ++ frac, l3)

mutual

/-- Fuel-indexed recursive-descent JSON value parser (`json.loads`). -/
def parseVal : Nat → List Char → Option (Json × List Char)
  | 0, _ => none
  | Nat.succ fuel, l =>
    let l1 := skipWs l
    match l1 with
    | '"' :: t =>
      match parseStringBody t with
      | some (cs, rest) => some (.str ⟨cs⟩, rest)
      | none => none
    | '{' :: t =>
      match skipWs t with
      | '}' :: r => some (.obj [], r)
      | t1 =>
        match parseMembers fuel t1 with
        | some (fs, rest) => some (.obj fs, rest)
        | none => none
    | '[' :: t =>
      match skipWs t with
      | ']' :: r => some (.arr [], r)
      | t1 =>
        match parseItems fuel t1 with
        | some (xs, rest) => some (.arr xs, rest)
        | none => none
    | _ =>
      if listPrefixB "null".data l1 then some (.null, l1.drop 4)
      else if listPrefixB "true".data l1 then some (.bool true, l1.drop 4)
      else if listPrefixB "false".data l1 then some (.bool false, l1.drop 5)
      else
        match parseNumber l1 with
        | some (lit, rest) => some (.num ⟨lit⟩, rest)
        | none => none

/-- Parse the members of a JSON object after the opening brace. -/
def parseMembers : Nat → List Char → Option (List (String × Json) × List Char)
  | 0, _ => none
  | Nat.succ fuel, l =>
    match skipWs l with
    | '"' :: t =>
      match parseStringBody t with
      | some (kcs, rest) =>
        match skipWs rest with
        | ':' :: r2 =>
          match parseVal fuel r2 with
          | some (v, r3) =>
            match skipWs r3 with
            | ',' :: r4 =>
              match parseMembers fuel r4 with
              | some (fs, r5) => some ((⟨kcs⟩, v) :: fs, r5)
              | none => none
            | '}' :: r4 => some ([(⟨kcs⟩, v)], r4)
            | _ => none
          | none => none
        | _ => none
      | none => none
    | _ => none

/-- Parse the items of a JSON array after the opening bracket. -/
def parseItems : Nat → List Char → Option (List Json × List Char)
  | 0, _ => none
  | Nat.succ fuel, l =>
    match parseVal fuel l with
    | some (v, r) =>
      match skipWs r with
      | ',' :: r2 =>
        match parseItems fuel r2 with
        | some (xs, r3) => some (v :: xs, r3)
        | none => none
      | ']' :: r2 => some ([v], r2)
      | _ => none
    | none => none

end

/-- Model of `json.loads`: parse a complete JSON document, requiring only trailing
whitespace after the value. -/
def jsonParse (s : String) : Option Json :=
  match parseVal (s.length + 1) s.data with
  | some (j, rest) => if skipWs rest = [] then some j else none
  | none => none

/-- The suffix starting at the first opening brace, if any. -/
def dropUntilBrace : List Char → Option (List Char)
  | [] => none
  | c :: t => if c = '{' then some (c :: t) else dropUntilBrace t

/-- Characters up to and including the first closing brace, if any. -/
def upToClose : List Char → Option (List Char)
  | [] => none
  | c :: t =>
    if c = '}' then some [c]
    else (upToClose t).map (fun r => c :: r)

/-- The second completion-parsing regex `(\{.*?\})` with `re.S`: the
leftmost opening brace up to the earliest closing brace after it. -/
def braceExtract (l : List Char) : Option (List Char) :=
  match dropUntilBrace l with
  | some (c :: t) => (upToClose t).map (fun r => c :: r)
  | _ => none

/-- The suffix after the first occurrence of `marker`, if any. -/
def afterMarker (marker : List Char) : List Char → Option (List Char)
  | [] => none
  | c :: t =>
    if listPrefixB marker (c :: t) then some ((c :: t).drop marker.length)
    else afterMarker marker t

/-- Whether a closing code fence follows after optional whitespace. -/
def closesFence (t : List Char) : Bool :=
  listPrefixB "```".data (skipWs t)

/-- Body of the fenced JSON object: the minimal prefix ending at a
closing brace that is followed by whitespace and a closing fence. -/
def fencedBody : List Char → Option (List Char)
  | [] => none
  | c :: t =>
    if c = '}' then
      if closesFence t then some [c]
      else (fencedBody t).map (fun r => c :: r)
    else (fencedBody t).map (fun r => c :: r)

/-- The first completion-parsing regex, for a ```json fenced block. The
regex's backtracking across later fence occurrences is approximated by
taking the first occurrence; no modelled input depends on that corner. -/
def fencedExtract (l : List Char) : Option (List Char) :=
  match afterMarker "```json".data l with
  | none => none
  | some rest =>
    match skipWs rest with
    | c :: t =>
      if c = '{' then (fencedBody t).map (fun r => c :: r) else none
    | [] => none

/-- The completion-text extraction of `AgentService.execute`: the fenced
pattern first, then the bare brace pattern. -/
def extractTagged (raw : String) : Option String :=
  match fencedExtract raw.data with
  | some cs => some ⟨cs⟩
  | none =>
    match braceExtract raw.data with
    | some cs => some ⟨cs⟩
    | none => none

/-- Outcome of one LLM consultation in `AgentService.execute`: a cache
hit with an already-decoded dict, a raw completion text (to be parsed by
the modelled regex + `json.loads`), or an exception from the call. -/
inductive LLMEvent where
  | cached (r : Json)
  | completion (raw : String)
  | llmFailure (msg : String)

/-- The environment threaded through the orchestrator: configuration,
the content store, whether the LLM client initialised, and the pending
external outcomes (one `LLMEvent` per LLM consultation, one
`SupervisionEvent` per sandboxed execution). -/
structure World where
  settings : Settings
  store : DiskStore
  llm_ok : Bool
  llm_events : List LLMEvent
  exec_events : List ExecutionService.SupervisionEvent

/-- Consume the next LLM outcome (an exhausted script is read as a call
failure; no modelled run exhausts its events). -/
def World.popLLM (w : World) : LLMEvent × World :=
  match w.llm_events with
  | [] => (.llmFailure "no response", w)
  | e :: t => (e, { w with llm_events := t })

/-- Consume the next sandbox outcome. -/
def World.popExec (w : World) : ExecutionService.SupervisionEvent × World :=
  match w.exec_events with
  | [] => (.wrapperError "no execution event", w)
  | e :: t => (e, { w with exec_events := t })

namespace AgentService

/-- The `except` branch around the LLM call in `AgentService.execute`
(`agent_service.py` lines 183-194): record `LLM Error: ...`, bump the
retry counter, loop back to `execute` below `MAX_RETRIES`, otherwise
surface the connection failure and reset the counter to 0. -/
def llm_error_path (s : AgentState) (msg : String) : AgentState :=
  let rc := s.retry_count + 1
  if rc < s.MAX_RETRIES then
    { s with error := some ("LLM Error: " ++ msg), retry_count := rc,
             next_node := .execute,
             user_message := "Connecting to AI... (Retry " ++ toString rc ++ ")" }
  else
    { s with error := some ("LLM Error: " ++ msg), retry_count := 0,
             next_node := .human_input,
             user_message := "AI Connection Failed: " ++ msg }

/-- The outer `except` branch of the dispatch block (`agent_service.py`
lines 251-255): record the exception text, bump the retry counter, and
loop or surface without touching `user_message` or the counter's value at
exhaustion. -/
def except_path (s : AgentState) (msg : String) : AgentState :=
  let rc := s.retry_count + 1
  { s with error := some msg, retry_count := rc,
           next_node := if rc < s.MAX_RETRIES then .execute else .human_input }

/-- Python `res.get("action") == tag`: only a string field compares equal
to a string literal. -/
def action_is (a : Option Json) (tag : String) : Bool :=
  match a with
  | some (.str s) => s = tag
  | _ => false

/-- Rendering of the action value inside the `ValueError` message. -/
def action_render : Option Json → String
  | none => "None"
  | some j => j.render

/-- The `action == "code"` branch (`agent_service.py` lines 225-247):
record the tool call, push an undo snapshot, read the working table, run
the sandboxed executor; on error keep the handle and do retry
bookkeeping, on success commit the new handle and compose the
success/diff/stdout message. -/
def code_path (w : World) (s : AgentState) (r : Json) : World × AgentState :=
  let content := str_field r "content" ""
  let tool : ToolCall :=
    ⟨"runPythonAnalysis",
     [("script", content), ("explanation", str_field r "explanation" "")]⟩
  let s1 := { s with last_tool := some tool }
  let desc := content.take 60
  let (st1, s2) := AgentState.push_undo w.store s1 ("Code: " ++ desc ++ "...")
  let w1 := { w with store := st1 }
  match s2.work_id.bind st1.get_df with
  | none => (w1, except_path s2 "No data found for key")
  | some df =>
    let (ev, w2) := w1.popExec
    let res := ExecutionService.exec_code w2.settings ev content df
    match res.2.1 with
    | some err =>
      (w2, { s2 with error := some err, retry_count := s2.retry_count + 1,
                     next_node := if s2.retry_count + 1 < s2.MAX_RETRIES
                                  then .execute else .human_input })
    | none =>
      let (key, st2) := w2.store.write_df res.1
      let w3 := { w2 with store := st2 }
      let diff := ExecutionService.compare_dataframes (some df) res.1
      let stdout := res.2.2
      let msg0 := "✅ Code executed successfully"
      let msg1 := if diff ≠ "" then msg0 ++ ("\n\n### Data Changes\n" ++ diff) else msg0
      let msg2 := if stdout ≠ "" then msg1 ++ ("\n\n**Output:**\n```\n" ++ stdout ++ "\n```")
                  else msg1
      (w3, { s2 with work_id := some key, user_message := msg2, error := none,
                     retry_count := 0, next_node := .eda })

/-- The dispatch on `res.get("action")` (`agent_service.py` lines
196-255), including the `ValueError` catch-all folded into the outer
`except` branch. -/
def dispatch (w : World) (s : AgentState) (r : Json) : World × AgentState :=
  let action := r.getField "action"
  if action_is action "answer" then
    (w, { s with user_message := str_field r "content" "", error := none,
                 retry_count := 0, next_node := .human_input })
  else if action_is action "clarify" then
    (w, { s with user_message := str_field r "content" "", error := none,
                 retry_count := 0, next_node := .human_input })
  else if action_is action "visualize" then
    let tool : ToolCall :=
      ⟨"generateVisualization",
       [("title", str_field r "title" "Chart"),
        ("type", str_field r "type" "bar"),
        ("xAxisKey", str_field r "xAxisKey" ""),
        ("yAxisKey", str_field r "yAxisKey" "")]⟩
    (w, { s with last_tool := some tool,
                 user_message := "Generating visualization...",
                 next_node := .eda })
  else if action_is action "code" then
    code_path w s r
  else
    (w, except_path s ("Unknown action: " ++ action_render action))

/-- Model of `AgentService.execute`: the LLM-not-initialised guard, the
consultation (cache hit, completion parse, or call failure), then the
action dispatch. The decode-error text of `json.loads` is abstracted. -/
def execute (w : World) (s : AgentState) : World × AgentState :=
  if w.llm_ok = false then
    (w, { s with error := some "LLM not initialized.",
                 user_message := "LLM not initialized.",
                 next_node := .human_input })
  else
    let (ev, w1) := w.popLLM
    match ev with
    | .llmFailure msg => (w1, llm_error_path s msg)
    | .cached r => dispatch w1 s r
    | .completion raw =>
      match extractTagged raw with
      | none => dispatch w1 s (Json.obj [("action", Json.str "answer"),
                                         ("content", Json.str raw)])
      | some txt =>
        match jsonParse txt with
        | some r => dispatch w1 s r
        | none => (w1, llm_error_path s "invalid JSON in model response")

/-- Model of `AgentService.eda`: no-op forwarding to `human_input`. -/
def eda (w : World) (s : AgentState) : World × AgentState :=
  (w, { s with next_node := .human_input })

/-- Model of `AgentService.undo` (node wrapper around `AgentState.undo`). -/
def undo_node (w : World) (s : AgentState) : World × AgentState :=
  let (s1, msg) := s.undo
  (w, { s1 with user_message := msg, next_node := .eda })

/-- Model of `AgentService.export` (a Lean keyword, hence the name): write the
working table out (the CSV write itself is external); report success or
failure, then go to `human_input`. -/
def export_node (w : World) (s : AgentState) : World × AgentState :=
  match s.work_id.bind w.store.get_df with
  | some _ =>
    let f := s.export_filename
    (w, { s with user_message := ("✅ Saved " ++ f), next_node := .human_input })
  | none =>
    (w, { s with user_message := "Export failed: No data found for key",
                 next_node := .human_input })

/-- One dispatch of the `run_cycle` loop body; `none` is the `else:
break` branch (control states that no branch handles). -/
def step (w : World) (s : AgentState) : Option (World × AgentState) :=
  match s.next_node with
  | .execute => some (execute w s)
  | .eda => some (eda w s)
  | .undo => some (undo_node w s)
  | .export' => some (export_node w s)
  | _ => none

/-- The `while state.next_node != "human_input" and safety < 20` loop,
indexed by the remaining iteration budget; also returns the number of
iterations performed. -/
def run_from : World → AgentState → Nat → World × AgentState × Nat
  | w, s, 0 => (w, s, 0)
  | w, s, n + 1 =>
    if s.next_node = .human_input then (w, s, 0)
    else
      match step w s with
      | none => (w, s, 0)
      | some (w', s') =>
        let r := run_from w' s' n
        (r.1, r.2.1, r.2.2 + 1)

/-- Model of `AgentService.run_cycle` with its iteration ceiling of 20. -/
def run_cycle (w : World) (s : AgentState) : World × AgentState :=
  ((run_from w s 20).1, (run_from w s 20).2.1)

/-- The number of loop iterations a `run_cycle` call performs. -/
def run_iterations (w : World) (s : AgentState) : Nat :=
  (run_from w s 20).2.2

end AgentService

/-- Python `text.split()`: split on whitespace runs, dropping empties. -/
def pySplit (text : String) : List String :=
  (text.split Char.isWhitespace).filter (fun p => p ≠ "")

/-- The instruction classification performed before the transition loop
(`api.py` lines 343-356): `undo`/`/undo` goes to the undo node,
`/export [name]` to the export node (the optional name overriding the
filename), anything else to `execute`. -/
def classify (s : AgentState) (text : String) : AgentState :=
  let s0 := { s with next_node := Node.human_input }
  if pyLower text = "undo" ∨ pyLower text = "/undo" then
    { s0 with user_message := "Undo requested", next_node := .undo }
  else if (pyLower text).startsWith "/export" then
    let parts := pySplit text
    let s1 := match parts.get? 1 with
      | some nm => { s0 with export_filename := nm }
      | none => s0
    { s1 with next_node := .export' }
  else
    { s0 with user_message := text, next_node := .execute }

/-- A control state the `run_cycle` loop dispatches or suspends on (every
state other than the two that hit the loop's `else: break`). -/
def good_node (n : Node) : Prop :=
  n ≠ Node.upload ∧ n ≠ Node.END

/-- The supervision outcome `ev` makes the sandboxed executor fail on
`code` whatever the input table is (covers validation rejection, runtime
fault, timeout, silent death, and output-contract violations). -/
def failing_exec (st : Settings) (code : String)
    (ev : ExecutionService.SupervisionEvent) : Prop :=
  ∀ df : DataFrame,
    ((ExecutionService.exec_code st ev code df).2.1).isSome = true

/-- The specification's words for the executor result contract: exactly
one of the table slot and the error slot is populated. -/
def exactly_one_populated (tbl : Option DataFrame) (err : Option String) : Prop :=
  (tbl.isSome = true ∧ err = none) ∨ (tbl = none ∧ err.isSome = true)

/-- A 3×1 sample table (`value` = 10, 20, 30). -/
def sample_table : DataFrame :=
  ⟨["value"], [[.int 10], [.int 20], [.int 30]]⟩

/-- A 1×1 table, for shape-change scenarios. -/
def one_cell_table : DataFrame :=
  ⟨["a"], [[.int 1]]⟩

/-- A 2×2 table extending `one_cell_table` by one row and one column. -/
def two_by_two_table : DataFrame :=
  ⟨["a", "b"], [[.int 1, .int 2], [.int 3, .int 4]]⟩

/-- A decoded code-action completion. -/
def code_action : Json :=
  Json.obj [("action", Json.str "code"), ("content", Json.str "x = 1")]

/-- A world whose three LLM consultations return the code action and
whose three sandboxed executions all time out. -/
def retry_world : World :=
  { settings := default_settings,
    store := ⟨[sample_table]⟩,
    llm_ok := true,
    llm_events := [.cached code_action, .cached code_action, .cached code_action],
    exec_events := [.timeout, .timeout, .timeout] }

/-- A freshly classified state about to enter `execute`, counter at 0. -/
def retry_start : AgentState :=
  { raw_id := some 0, work_id := some 0, next_node := .execute,
    user_message := "double it" }

/-- A world whose single completion contains a brace substring that is
not valid JSON. -/
def parsefail_world : World :=
  { settings := default_settings, store := ⟨[sample_table]⟩, llm_ok := true,
    llm_events := [.completion "ok \x7boops\x7d"], exec_events := [] }

/-- A world whose single completion is plain prose without braces. -/
def verbatim_world : World :=
  { settings := default_settings, store := ⟨[sample_table]⟩, llm_ok := true,
    llm_events := [.completion "hello there"], exec_events := [] }

/-- A world with one pending sandbox timeout and no LLM events. -/
def exec_fail_world : World :=
  { settings := default_settings, store := ⟨[sample_table]⟩, llm_ok := true,
    llm_events := [], exec_events := [.timeout] }

/-- A minimal state owning `sample_table` as its working handle. -/
def owned_state : AgentState :=
  { work_id := some 0, next_node := .human_input }

/-- The store backing `owned_state`. -/
def owned_store : DiskStore := ⟨[sample_table]⟩

/-- A statement that the diff engine's cell-by-cell comparison branch
can produce: the no-changes terminal, the size-ceiling notice, a
changed-cell count, or a sample-changes block. -/
def cell_cmp_stmt (s : String) : Prop :=
  s = "No changes detected." ∨
  s = ExecutionService.too_large_stmt ∨
  (∃ n : Nat, s = ExecutionService.values_changed_stmt n) ∨
  (∃ o n' : DataFrame, s = ExecutionService.sample_changes_stmt o n')

/-! Helper lemmas about the string-matching primitives. -/

theorem listPrefixB_iff (a b : List Char) : listPrefixB a b = true ↔ a <+: b := by
  induction a generalizing b with
  | nil => simp [listPrefixB]
  | cons x xs ih =>
    cases b with
    | nil => simp [listPrefixB]
    | cons y ys =>
      simp [listPrefixB, List.cons_prefix_cons, ih]

theorem strIn_iff (a b : List Char) : strIn a b = true ↔ a <:+: b := by
  induction b with
  | nil => simp [strIn, List.isEmpty_iff]
  | cons c t ih =>
    simp [strIn, List.infix_cons_iff, listPrefixB_iff, ih]

theorem pyLower_data (s : String) : (pyLower s).data = s.data.map Char.toLower := rfl

theorem scan_patterns_eq_none_iff (cl : List Char) (ps : List (String × String)) :
    ExecutionService.scan_patterns cl ps = none ↔
      ∀ p ∈ ps, ¬ (p.1.data <:+: cl) := by
  induction ps with
  | nil => simp [ExecutionService.scan_patterns]
  | cons q rest ih =>
    obtain ⟨p, m⟩ := q
    by_cases h : strIn p.data cl = true
    · have hp : p.data <:+: cl := (strIn_iff _ _).mp h
      simp only [ExecutionService.scan_patterns, h, if_true]
      constructor
      · intro hc; exact absurd hc (by simp)
      · intro hall
        exact absurd hp (hall (p, m) (by simp))
    · have hp : ¬ (p.data <:+: cl) := fun hc => h ((strIn_iff _ _).mpr hc)
      have hIn : strIn p.data cl = false := by
        cases hs : strIn p.data cl
        · rfl
        · exact absurd hs h
      simp only [ExecutionService.scan_patterns, hIn, Bool.false_eq_true, if_false]
      rw [ih]
      constructor
      · intro hall q hq
        rcases List.mem_cons.mp hq with rfl | hq'
        · exact hp
        · exact hall q hq'
      · intro hall q hq
        exact hall q (List.mem_cons_of_mem _ hq)

theorem scan_patterns_first (cl : List Char) :
    ∀ (ps : List (String × String)) (i : Nat) (hi : i < ps.length),
      ((ps.get ⟨i, hi⟩).1.data <:+: cl) →
      (∀ (j : Nat) (hj : j < ps.length), j < i →
        ¬ ((ps.get ⟨j, hj⟩).1.data <:+: cl)) →
      ExecutionService.scan_patterns cl ps = some (ps.get ⟨i, hi⟩).2 := by
  intro ps
  induction ps with
  | nil => intro i hi; exact absurd hi (by simp)
  | cons q rest ih =>
    intro i hi hmatch hbefore
    obtain ⟨p, m⟩ := q
    cases i with
    | zero =>
      simp only [List.get] at hmatch ⊢
      have : strIn p.data cl = true := (strIn_iff _ _).mpr hmatch
      simp [ExecutionService.scan_patterns, this]
    | succ k =>
      have hhead : ¬ (p.data <:+: cl) := by
        have := hbefore 0 (by simp) (Nat.succ_pos k)
        simpa using this
      have hIn : strIn p.data cl = false := by
        cases hs : strIn p.data cl
        · rfl
        · exact absurd ((strIn_iff _ _).mp hs) hhead
      simp only [ExecutionService.scan_patterns, hIn, Bool.false_eq_true, if_false]
      have hk : k < rest.length := Nat.lt_of_succ_lt_succ hi
      have := ih k hk (by simpa using hmatch) ?_
      · simpa using this
      · intro j hj hjk
        have := hbefore (j + 1) (Nat.succ_lt_succ hj) (Nat.succ_lt_succ hjk)
        simpa using this

/-! Claim C10. -/

theorem backend_scan_patterns_eq (cl : List Char) (ps : List (String × String)) :
    Backend.scan_patterns cl ps = ExecutionService.scan_patterns cl ps := by
  induction ps with
  | nil => rfl
  | cons q rest ih =>
    obtain ⟨p, m⟩ := q
    simp only [Backend.scan_patterns, ExecutionService.scan_patterns, ih]

/-- Claim C10: the duplicated implementations of the diff engine and the
code validator in `backend.py` and in `services/execution_service.py`
are extensionally equal — same statement lists, same joined summaries,
same `(accepted, reason)` pairs. -/
theorem c10_duplicated_implementations_agree :
    (∀ (dfOld : Option DataFrame) (dfNew : DataFrame),
      Backend.compare_changes dfOld dfNew = ExecutionService.compare_changes dfOld dfNew ∧
      Backend.compare_dataframes dfOld dfNew = ExecutionService.compare_dataframes dfOld dfNew) ∧
    (∀ (st : Settings) (code : String),
      Backend.validate_code st code = ExecutionService.validate_code st code) := by
  constructor
  · intro dfOld dfNew
    have h : Backend.compare_changes dfOld dfNew = ExecutionService.compare_changes dfOld dfNew := by
      unfold Backend.compare_changes ExecutionService.compare_changes
      rfl
    refine ⟨h, ?_⟩
    unfold Backend.compare_dataframes ExecutionService.compare_dataframes
    rw [h]
  · intro st code
    unfold Backend.validate_code ExecutionService.validate_code
    rw [backend_scan_patterns_eq]
    rfl

/-! Claim C6. -/

theorem pyLower_preserves_substring {pat code : String}
    (hfix : pat.data.map Char.toLower = pat.data)
    (h : pat.data <:+: code.data) : pat.data <:+: (pyLower code).data := by
  have := List.IsInfix.map Char.toLower h
  rwa [hfix] at this

/-- Claim C6: the code validator is a pure function that (1) rejects any
code longer than the configured max length with the too-long reason;
otherwise (2) accepts iff the case-insensitive substring scan finds no
denylist pattern, (3) the first matching pattern in denylist order
supplies the rejection reason, and (4) code containing `import os` is
rejected with the OS-module reason, with the executor returning that
rejection without consulting the sandbox outcome. -/
theorem c6_validator_denylist_gate (st : Settings) (code : String)
    (df : DataFrame) (ev : ExecutionService.SupervisionEvent) :
    (code.length > st.max_code_length →
      ExecutionService.validate_code st code = (false, too_long_msg st)) ∧
    (code.length ≤ st.max_code_length →
      (((ExecutionService.validate_code st code).1 = true) ↔
        ∀ p ∈ ExecutionService.dangerous_patterns,
          ¬ (p.1.data <:+: (pyLower code).data))) ∧
    (code.length ≤ st.max_code_length →
      ∀ (i : Nat) (hi : i < ExecutionService.dangerous_patterns.length),
        ((ExecutionService.dangerous_patterns.get ⟨i, hi⟩).1.data <:+: (pyLower code).data) →
        (∀ (j : Nat) (hj : j < ExecutionService.dangerous_patterns.length), j < i →
          ¬ ((ExecutionService.dangerous_patterns.get ⟨j, hj⟩).1.data <:+: (pyLower code).data)) →
        ExecutionService.validate_code st code =
          (false, (ExecutionService.dangerous_patterns.get ⟨i, hi⟩).2)) ∧
    ("import os".data <:+: code.data → code.length ≤ st.max_code_length →
      ExecutionService.validate_code st code = (false, "OS module access not allowed") ∧
      ExecutionService.exec_code st ev code df =
        (df, some "OS module access not allowed", "")) := by
  refine ⟨?_, ?_, ?_, ?_⟩
  · intro hlen
    unfold ExecutionService.validate_code
    rw [if_pos hlen]
  · intro hlen
    unfold ExecutionService.validate_code
    rw [if_neg (Nat.not_lt.mpr hlen)]
    rcases hscan : ExecutionService.scan_patterns (pyLower code).data
        ExecutionService.dangerous_patterns with _ | m
    · simp only [hscan]
      rw [← scan_patterns_eq_none_iff, hscan]
      simp
    · simp only [hscan]
      constructor
      · intro hfalse; exact absurd hfalse (by simp)
      · intro hall
        rw [← scan_patterns_eq_none_iff (pyLower code).data] at hall
        rw [hscan] at hall
        exact absurd hall (by simp)
  · intro hlen i hi hmatch hbefore
    unfold ExecutionService.validate_code
    rw [if_neg (Nat.not_lt.mpr hlen)]
    rw [scan_patterns_first (pyLower code).data ExecutionService.dangerous_patterns i hi hmatch hbefore]
  · intro hos hlen
    have hlow : "import os".data <:+: (pyLower code).data :=
      pyLower_preserves_substring (by decide) hos
    have hv : ExecutionService.validate_code st code =
        (false, "OS module access not allowed") := by
      unfold ExecutionService.validate_code
      rw [if_neg (Nat.not_lt.mpr hlen)]
      rw [scan_patterns_first (pyLower code).data ExecutionService.dangerous_patterns 0
        (by simp [ExecutionService.dangerous_patterns]) (by simpa using hlow)
        (fun j hj hj0 => absurd hj0 (Nat.not_lt_zero j))]
      rfl
    refine ⟨hv, ?_⟩
    unfold ExecutionService.exec_code
    rw [hv]
    rfl

/-- Witness for C6 at the concrete code string `import os`. -/
theorem c6_witness :
    ("import os".data <:+: "import os".data) ∧
    ("import os" : String).length ≤ default_settings.max_code_length ∧
    ExecutionService.validate_code default_settings "import os" =
      (false, "OS module access not allowed") ∧
    ExecutionService.exec_code default_settings .timeout "import os" sample_table =
      (sample_table, some "OS module access not allowed", "") := by
  have h := (c6_validator_denylist_gate default_settings "import os" sample_table
    .timeout).2.2.2 (List.infix_rfl) (by decide)
  exact ⟨List.infix_rfl, by decide, h.1, h.2⟩

/-! Claim C7. -/

theorem ne_cell_self (c : Cell) : ExecutionService.ne_cell c c = false := by
  cases c <;> simp [ExecutionService.ne_cell]

theorem count_zipWith_ne_cell_self (r : List Cell) :
    (List.zipWith ExecutionService.ne_cell r r).count true = 0 := by
  induction r with
  | nil => rfl
  | cons c t ih =>
    rw [List.zipWith_cons_cons, ne_cell_self, List.count_cons, ih]
    simp

theorem changed_count_self (T : DataFrame) :
    ExecutionService.changed_count T T = 0 := by
  unfold ExecutionService.changed_count ExecutionService.changed_mask
  suffices h : ∀ rs : List (List Cell),
      ((List.zipWith (fun r1 r2 => List.zipWith ExecutionService.ne_cell r1 r2) rs rs).map
        (fun r => r.count true)).sum = 0 by
    exact h T.rows
  intro rs
  induction rs with
  | nil => rfl
  | cons r t ih =>
    rw [List.zipWith_cons_cons, List.map_cons, List.sum_cons,
      count_zipWith_ne_cell_self, ih]

/-- Claim C7: on any table of at most 10000 rows, diffing a table against
itself yields exactly the single statement `No changes detected.`. -/
theorem c7_diff_of_identical_tables (T : DataFrame) (h : T.rows.length ≤ 10000) :
    ExecutionService.compare_changes (some T) T = ["No changes detected."] ∧
    ExecutionService.compare_dataframes (some T) T = "No changes detected." := by
  have h1 : ExecutionService.compare_changes (some T) T = ["No changes detected."] := by
    unfold ExecutionService.compare_changes
    simp [Nat.not_lt.mpr h, changed_count_self]
  refine ⟨h1, ?_⟩
  unfold ExecutionService.compare_dataframes
  rw [h1]
  rfl

/-- Witness for C7 at the concrete 3×1 sample table. -/
theorem c7_witness :
    sample_table.rows.length ≤ 10000 ∧
    ExecutionService.compare_changes (some sample_table) sample_table =
      ["No changes detected."] :=
  ⟨by decide, (c7_diff_of_identical_tables sample_table (by decide)).1⟩

/-! Claim C8. -/

theorem string_ne_of_getElem? {a b : String} {n : Nat} {x y : Char}
    (ha : a.data[n]? = some x) (hb : b.data[n]? = some y) (hxy : x ≠ y) :
    a ≠ b := by
  intro h
  rw [h, hb] at ha
  exact hxy (Option.some.inj ha).symm

theorem values_changed_stmt_getElem (n : Nat) {i : Nat}
    (hi : i < "**Values Changed:** ".data.length) :
    (ExecutionService.values_changed_stmt n).data[i]? =
      "**Values Changed:** ".data[i]? := by
  simp only [ExecutionService.values_changed_stmt]
  rw [String.append_assoc, String.data_append]
  exact List.getElem?_append_left hi

theorem sample_changes_stmt_getElem (o n' : DataFrame) {i : Nat}
    (hi : i < "\n**Sample Changes:**\n".data.length) :
    (ExecutionService.sample_changes_stmt o n').data[i]? =
      "\n**Sample Changes:**\n".data[i]? := by
  simp only [ExecutionService.sample_changes_stmt]
  rw [String.data_append]
  exact List.getElem?_append_left hi

theorem new_cols_stmt_getElem (cs : List String) {i : Nat}
    (hi : i < "**New Columns:** ".data.length) :
    (ExecutionService.new_cols_stmt cs).data[i]? =
      "**New Columns:** ".data[i]? := by
  simp only [ExecutionService.new_cols_stmt]
  rw [String.data_append]
  exact List.getElem?_append_left hi

theorem removed_cols_stmt_getElem (cs : List String) {i : Nat}
    (hi : i < "**Removed Columns:** ".data.length) :
    (ExecutionService.removed_cols_stmt cs).data[i]? =
      "**Removed Columns:** ".data[i]? := by
  simp only [ExecutionService.removed_cols_stmt]
  rw [String.data_append]
  exact List.getElem?_append_left hi

theorem shape_change_stmt_getElem (o n : DataFrame) {i : Nat}
    (hi : i < "**Shape Change:** `".data.length) :
    (ExecutionService.shape_change_stmt o n).data[i]? =
      "**Shape Change:** `".data[i]? := by
  simp only [ExecutionService.shape_change_stmt]
  rw [String.append_assoc, String.append_assoc, String.append_assoc,
    String.data_append]
  exact List.getElem?_append_left hi

theorem shape_change_stmt_not_cell_cmp (o n : DataFrame) :
    ¬ cell_cmp_stmt (ExecutionService.shape_change_stmt o n) := by
  rintro (h | h | ⟨k, h⟩ | ⟨o', n', h⟩)
  · have h1 : (ExecutionService.shape_change_stmt o n).data[0]? = some '*' := by
      rw [shape_change_stmt_getElem o n (by decide)]
      decide
    exact string_ne_of_getElem? h1 (by rfl) (by decide) h
  · have h1 : (ExecutionService.shape_change_stmt o n).data[1]? = some '*' := by
      rw [shape_change_stmt_getElem o n (by decide)]
      decide
    exact string_ne_of_getElem? h1 (by rfl) (by decide) h
  · have h1 : (ExecutionService.shape_change_stmt o n).data[2]? = some 'S' := by
      rw [shape_change_stmt_getElem o n (by decide)]
      decide
    have h2 : (ExecutionService.values_changed_stmt k).data[2]? = some 'V' := by
      rw [values_changed_stmt_getElem k (by decide)]
      decide
    exact string_ne_of_getElem? h1 h2 (by decide) h
  · have h1 : (ExecutionService.shape_change_stmt o n).data[0]? = some '*' := by
      rw [shape_change_stmt_getElem o n (by decide)]
      decide
    have h2 : (ExecutionService.sample_changes_stmt o' n').data[0]? = some '\n' := by
      rw [sample_changes_stmt_getElem o' n' (by decide)]
      decide
    exact string_ne_of_getElem? h1 h2 (by decide) h

theorem row_plus_one_not_cell_cmp : ¬ cell_cmp_stmt "Rows: +1" := by
  rintro (h | h | ⟨k, h⟩ | ⟨o', n', h⟩)
  · exact absurd h (by decide)
  · exact absurd h (by decide)
  · have h2 : (ExecutionService.values_changed_stmt k).data[0]? = some '*' := by
      rw [values_changed_stmt_getElem k (by decide)]
      decide
    exact string_ne_of_getElem? (by rfl) h2 (by decide) h
  · have h2 : (ExecutionService.sample_changes_stmt o' n').data[0]? = some '\n' := by
      rw [sample_changes_stmt_getElem o' n' (by decide)]
      decide
    exact string_ne_of_getElem? (by rfl) h2 (by decide) h

theorem col_plus_one_not_cell_cmp : ¬ cell_cmp_stmt "Columns: +1" := by
  rintro (h | h | ⟨k, h⟩ | ⟨o', n', h⟩)
  · exact absurd h (by decide)
  · exact absurd h (by decide)
  · have h2 : (ExecutionService.values_changed_stmt k).data[0]? = some '*' := by
      rw [values_changed_stmt_getElem k (by decide)]
      decide
    exact string_ne_of_getElem? (by rfl) h2 (by decide) h
  · have h2 : (ExecutionService.sample_changes_stmt o' n').data[0]? = some '\n' := by
      rw [sample_changes_stmt_getElem o' n' (by decide)]
      decide
    exact string_ne_of_getElem? (by rfl) h2 (by decide) h

theorem new_cols_stmt_not_cell_cmp (cs : List String) :
    ¬ cell_cmp_stmt (ExecutionService.new_cols_stmt cs) := by
  rintro (h | h | ⟨k, h⟩ | ⟨o', n', h⟩)
  · have h1 : (ExecutionService.new_cols_stmt cs).data[0]? = some '*' := by
      rw [new_cols_stmt_getElem cs (by decide)]
      decide
    exact string_ne_of_getElem? h1 (by rfl) (by decide) h
  · have h1 : (ExecutionService.new_cols_stmt cs).data[1]? = some '*' := by
      rw [new_cols_stmt_getElem cs (by decide)]
      decide
    exact string_ne_of_getElem? h1 (by rfl) (by decide) h
  · have h1 : (ExecutionService.new_cols_stmt cs).data[2]? = some 'N' := by
      rw [new_cols_stmt_getElem cs (by decide)]
      decide
    have h2 : (ExecutionService.values_changed_stmt k).data[2]? = some 'V' := by
      rw [values_changed_stmt_getElem k (by decide)]
      decide
    exact string_ne_of_getElem? h1 h2 (by decide) h
  · have h1 : (ExecutionService.new_cols_stmt cs).data[0]? = some '*' := by
      rw [new_cols_stmt_getElem cs (by decide)]
      decide
    have h2 : (ExecutionService.sample_changes_stmt o' n').data[0]? = some '\n' := by
      rw [sample_changes_stmt_getElem o' n' (by decide)]
      decide
    exact string_ne_of_getElem? h1 h2 (by decide) h

theorem removed_cols_stmt_not_cell_cmp (cs : List String) :
    ¬ cell_cmp_stmt (ExecutionService.removed_cols_stmt cs) := by
  rintro (h | h | ⟨k, h⟩ | ⟨o', n', h⟩)
  · have h1 : (ExecutionService.removed_cols_stmt cs).data[0]? = some '*' := by
      rw [removed_cols_stmt_getElem cs (by decide)]
      decide
    exact string_ne_of_getElem? h1 (by rfl) (by decide) h
  · have h1 : (ExecutionService.removed_cols_stmt cs).data[1]? = some '*' := by
      rw [removed_cols_stmt_getElem cs (by decide)]
      decide
    exact string_ne_of_getElem? h1 (by rfl) (by decide) h
  · have h1 : (ExecutionService.removed_cols_stmt cs).data[2]? = some 'R' := by
      rw [removed_cols_stmt_getElem cs (by decide)]
      decide
    have h2 : (ExecutionService.values_changed_stmt k).data[2]? = some 'V' := by
      rw [values_changed_stmt_getElem k (by decide)]
      decide
    exact string_ne_of_getElem? h1 h2 (by decide) h
  · have h1 : (ExecutionService.removed_cols_stmt cs).data[0]? = some '*' := by
      rw [removed_cols_stmt_getElem cs (by decide)]
      decide
    have h2 : (ExecutionService.sample_changes_stmt o' n').data[0]? = some '\n' := by
      rw [sample_changes_stmt_getElem o' n' (by decide)]
      decide
    exact string_ne_of_getElem? h1 h2 (by decide) h

theorem mem_ite_singleton {α : Type} {P : Prop} [Decidable P] {x y : α}
    (h : x ∈ (if P then [y] else [])) : x = y := by
  split at h
  · simpa using h
  · simp at h

/-- Claim C8: diffing a table against one with exactly one more row and
one more column yields the shape-change statement together with signed
row-delta and column-delta statements, and no statement of the
cell-by-cell comparison branch appears. -/
theorem c8_diff_one_more_row_and_column (T1 T2 : DataFrame)
    (hr : T2.rows.length = T1.rows.length + 1)
    (hc : T2.cols.length = T1.cols.length + 1) :
    (ExecutionService.shape_change_stmt T1 T2 ∈
      ExecutionService.compare_changes (some T1) T2) ∧
    ("Rows: +1" ∈ ExecutionService.compare_changes (some T1) T2) ∧
    ("Columns: +1" ∈ ExecutionService.compare_changes (some T1) T2) ∧
    (∀ stmt ∈ ExecutionService.compare_changes (some T1) T2,
      ¬ cell_cmp_stmt stmt) := by
  have hshape : T1.shape ≠ T2.shape := by
    rw [DataFrame.shape, DataFrame.shape]
    intro h
    rw [Prod.mk.injEq] at h
    omega
  have hdr : (T2.rows.length : Int) - (T1.rows.length : Int) = 1 := by
    rw [hr]; push_cast; ring
  have hdc : (T2.cols.length : Int) - (T1.cols.length : Int) = 1 := by
    rw [hc]; push_cast; ring
  have hrow1 : ExecutionService.row_delta_stmt 1 = "Rows: +1" := by decide
  have hcol1 : ExecutionService.col_delta_stmt 1 = "Columns: +1" := by decide
  have hlist : ExecutionService.compare_changes (some T1) T2 =
      [ExecutionService.shape_change_stmt T1 T2, "Rows: +1", "Columns: +1"]
        ++ ((if ExecutionService.new_cols_of T1 T2 ≠ [] then
              [ExecutionService.new_cols_stmt (ExecutionService.new_cols_of T1 T2)]
            else [])
          ++ (if ExecutionService.removed_cols_of T1 T2 ≠ [] then
              [ExecutionService.removed_cols_stmt (ExecutionService.removed_cols_of T1 T2)]
            else [])) := by
    simp only [ExecutionService.compare_changes, hdr, hdc]
    rw [if_pos hshape]
    rw [if_pos (show (1 : Int) ≠ 0 from by decide),
      if_pos (show (1 : Int) ≠ 0 from by decide)]
    rw [if_neg (show ¬(T1.shape = T2.shape ∧ T1.cols = T2.cols) from
      fun hand => hshape hand.1)]
    rw [hrow1, hcol1]
    simp
  refine ⟨?_, ?_, ?_, ?_⟩
  · rw [hlist]; simp
  · rw [hlist]; simp
  · rw [hlist]; simp
  · rw [hlist]
    intro stmt hstmt
    rcases List.mem_append.mp hstmt with h3 | htail
    · simp only [List.mem_cons, List.not_mem_nil, or_false] at h3
      rcases h3 with rfl | rfl | rfl
      · exact shape_change_stmt_not_cell_cmp T1 T2
      · exact row_plus_one_not_cell_cmp
      · exact col_plus_one_not_cell_cmp
    · rcases List.mem_append.mp htail with hn | hrm
      · rw [mem_ite_singleton hn]
        exact new_cols_stmt_not_cell_cmp _
      · rw [mem_ite_singleton hrm]
        exact removed_cols_stmt_not_cell_cmp _

/-- Witness for C8 at a concrete 1×1 table against a 2×2 table. -/
theorem c8_witness :
    two_by_two_table.rows.length = one_cell_table.rows.length + 1 ∧
    two_by_two_table.cols.length = one_cell_table.cols.length + 1 ∧
    "Rows: +1" ∈ ExecutionService.compare_changes (some one_cell_table) two_by_two_table ∧
    "Columns: +1" ∈ ExecutionService.compare_changes (some one_cell_table) two_by_two_table :=
  ⟨by decide, by decide,
   (c8_diff_one_more_row_and_column one_cell_table two_by_two_table
      (by decide) (by decide)).2.1,
   (c8_diff_one_more_row_and_column one_cell_table two_by_two_table
      (by decide) (by decide)).2.2.1⟩

/-! Claim C4. -/

theorem get_df_write_df (st : DiskStore) (h : Nat) (df d : DataFrame)
    (hg : st.get_df h = some df) : ((st.write_df d).2).get_df h = some df := by
  have hlt : h < st.tables.length := by
    unfold DiskStore.get_df at hg
    exact (List.getElem?_eq_some_iff.mp hg).1
  show (st.tables ++ [d])[h]? = some df
  rw [List.getElem?_append_left hlt]
  exact hg

theorem push_undo_work_id (st : DiskStore) (s : AgentState) (d : String) :
    (AgentState.push_undo st s d).2.work_id = s.work_id := by
  unfold AgentState.push_undo
  rcases hw : s.work_id with _ | h
  · simp [hw]
  · rcases hg : st.get_df h with _ | df
    · simp [hg, hw]
    · simp [hg, DiskStore.write_df]

/-- Claim C4 (amended): with a non-empty working handle whose table is
readable, `push_undo` then `undo` restores the prior working *table*
exactly and the prior undo stack, but under the fresh snapshot handle
created by the push — which differs from the handle held before the
push. -/
theorem c4_push_then_undo (st : DiskStore) (s : AgentState) (desc : String)
    (h : Nat) (df : DataFrame)
    (hw : s.work_id = some h) (hg : st.get_df h = some df) :
    ((AgentState.push_undo st s desc).2.undo).1.work_id = some st.tables.length ∧
    ((AgentState.push_undo st s desc).1).get_df st.tables.length = some df ∧
    ((AgentState.push_undo st s desc).2.undo).1.work_id ≠ s.work_id ∧
    ((AgentState.push_undo st s desc).2.undo).1.history = s.history := by
  have hlt : h < st.tables.length := by
    unfold DiskStore.get_df at hg
    rcases List.getElem?_eq_some_iff.mp hg with ⟨hl, _⟩
    exact hl
  have hpush : AgentState.push_undo st s desc =
      (⟨st.tables ++ [df]⟩,
       { s with history := s.history ++ [⟨desc, st.tables.length⟩] }) := by
    simp only [AgentState.push_undo, hw, hg, DiskStore.write_df]
  rw [hpush]
  have hundo : ({ s with history := s.history ++ [⟨desc, st.tables.length⟩]} :
      AgentState).undo =
      ({ s with history := s.history, work_id := some st.tables.length },
       "Undone: " ++ desc) := by
    unfold AgentState.undo
    rw [List.getLast?_concat]
    rw [List.dropLast_concat]
  rw [hundo]
  refine ⟨rfl, ?_, ?_, rfl⟩
  · unfold DiskStore.get_df
    exact List.getElem?_concat_length st.tables df
  · rw [hw]
    intro hcontra
    have := Option.some.inj hcontra
    omega

/-- Counterexample for C4 as stated: at a concrete one-table store, the
working handle after push-then-undo is the fresh snapshot handle `1`,
not the prior handle `0`. -/
theorem c4_counterexample :
    owned_state.work_id = some 0 ∧
    owned_store.get_df 0 = some sample_table ∧
    ((AgentState.push_undo owned_store owned_state "snap").2.undo).1.work_id = some 1 ∧
    ((AgentState.push_undo owned_store owned_state "snap").2.undo).1.work_id ≠
      owned_state.work_id := by
  refine ⟨rfl, rfl, by decide, by decide⟩

/-- Witness for the amended C4 at the concrete one-table store. -/
theorem c4_witness :
    owned_state.work_id = some 0 ∧
    owned_store.get_df 0 = some sample_table ∧
    ((AgentState.push_undo owned_store owned_state "snap").2.undo).1.work_id =
      some owned_store.tables.length ∧
    ((AgentState.push_undo owned_store owned_state "snap").1).get_df
      owned_store.tables.length = some sample_table :=
  ⟨rfl, rfl,
   (c4_push_then_undo owned_store owned_state "snap" 0 sample_table rfl rfl).1,
   (c4_push_then_undo owned_store owned_state "snap" 0 sample_table rfl rfl).2.1⟩

/-! Claim C1. -/

/-- Claim C1 (amended): the executor's error slot alone discriminates the
outcome — either the error is `none` (success), or the error is
populated and the table slot holds the *input* table passed through
unchanged; both slots are populated on failure, so "exactly one of
(table, error)" does not hold of the returned tuple. This covers both
`exec_code` implementations. -/
theorem c1_exec_code_error_discriminates (st : Settings)
    (ev : ExecutionService.SupervisionEvent) (evB : Backend.BackendExecEvent)
    (code : String) (df : DataFrame) :
    ((ExecutionService.exec_code st ev code df).2.1 = none ∨
      (((ExecutionService.exec_code st ev code df).2.1).isSome = true ∧
        (ExecutionService.exec_code st ev code df).1 = df)) ∧
    ((Backend.exec_code st evB code df).2.1 = none ∨
      (((Backend.exec_code st evB code df).2.1).isSome = true ∧
        (Backend.exec_code st evB code df).1 = df)) := by
  constructor
  · unfold ExecutionService.exec_code
    by_cases hv : (ExecutionService.validate_code st code).1 = false
    · rw [if_pos hv]
      exact Or.inr ⟨rfl, rfl⟩
    · rw [if_neg hv]
      rcases ev with _ | _ | m | o
      · exact Or.inr ⟨rfl, rfl⟩
      · exact Or.inr ⟨rfl, rfl⟩
      · exact Or.inr ⟨rfl, rfl⟩
      · rcases o with ⟨m, out⟩ | ⟨dfVar, out⟩
        · exact Or.inr ⟨rfl, rfl⟩
        · rcases dfVar with _ | dfv
          · exact Or.inr ⟨rfl, rfl⟩
          · rcases dfv with _ | d
            · exact Or.inr ⟨rfl, rfl⟩
            · exact Or.inl rfl
  · unfold Backend.exec_code
    by_cases hv : (Backend.validate_code st code).1 = false
    · rw [if_pos hv]
      exact Or.inr ⟨rfl, rfl⟩
    · rw [if_neg hv]
      rcases evB with ⟨out⟩ | o
      · exact Or.inr ⟨rfl, rfl⟩
      · rcases o with ⟨m, out⟩ | ⟨dfVar, out⟩
        · exact Or.inr ⟨rfl, rfl⟩
        · rcases dfVar with _ | dfv
          · exact Or.inr ⟨rfl, rfl⟩
          · rcases dfv with _ | d
            · exact Or.inr ⟨rfl, rfl⟩
            · exact Or.inl rfl

/-- Counterexample for C1 as stated: on a failing call (here a validation
rejection) the executor returns the input table *and* an error — both
slots populated — so "exactly one of (table, error) is populated" fails
at this concrete input. -/
theorem c1_counterexample :
    ExecutionService.exec_code default_settings .timeout "import os" sample_table =
      (sample_table, some "OS module access not allowed", "") ∧
    ¬ exactly_one_populated
        (some (ExecutionService.exec_code default_settings .timeout "import os"
          sample_table).1)
        ((ExecutionService.exec_code default_settings .timeout "import os"
          sample_table).2.1) := by
  refine ⟨by decide, ?_⟩
  rintro (⟨_, hnone⟩ | ⟨htbl, _⟩)
  · exact absurd hnone (by decide)
  · exact absurd htbl (by decide)

/-! Claim C3. -/

theorem action_is_ne (a : Option Json) (t1 t2 : String)
    (h1 : AgentService.action_is a t1 = true) (hne : t1 ≠ t2) :
    AgentService.action_is a t2 = false := by
  cases a with
  | none => simp [AgentService.action_is] at h1
  | some j =>
    cases j with
    | str s =>
      simp only [AgentService.action_is, decide_eq_true_eq] at h1
      simp only [AgentService.action_is, decide_eq_false_iff_not]
      subst h1
      exact fun h2 => hne h2
    | null => simp [AgentService.action_is] at h1
    | bool b => simp [AgentService.action_is] at h1
    | num lit => simp [AgentService.action_is] at h1
    | arr xs => simp [AgentService.action_is] at h1
    | obj fs => simp [AgentService.action_is] at h1

theorem code_path_work_id (w : World) (s : AgentState) (r : Json)
    (ev : ExecutionService.SupervisionEvent)
    (rest : List ExecutionService.SupervisionEvent)
    (hev : w.exec_events = ev :: rest)
    (hfail : failing_exec w.settings (str_field r "content" "") ev) :
    ((AgentService.code_path w s r).2).work_id = s.work_id := by
  unfold AgentService.code_path
  rcases hb : ((AgentState.push_undo w.store
      { s with last_tool := some ⟨"runPythonAnalysis",
          [("script", str_field r "content" ""),
           ("explanation", str_field r "explanation" "")]⟩ }
      ("Code: " ++ (str_field r "content" "").take 60 ++ "...")).2.work_id.bind
      (AgentState.push_undo w.store
      { s with last_tool := some ⟨"runPythonAnalysis",
          [("script", str_field r "content" ""),
           ("explanation", str_field r "explanation" "")]⟩ }
      ("Code: " ++ (str_field r "content" "").take 60 ++ "...")).1.get_df)
      with _ | df
  · simp only [hb]
    rw [AgentService.except_path]
    rw [push_undo_work_id]
  · simp only [hb, World.popExec, hev]
    have hf := hfail df
    rcases hres : (ExecutionService.exec_code w.settings ev
        (str_field r "content" "") df).2.1 with _ | err
    · rw [hres] at hf
      exact absurd hf (by decide)
    · simp only [hres]
      rw [push_undo_work_id]

/-- Claim C3: for every parsed code-action instruction whose sandboxed
execution fails (for any input table), the working handle after the
dispatch equals the working handle before it. -/
theorem c3_failed_code_keeps_work_id (w : World) (s : AgentState) (r : Json)
    (ev : ExecutionService.SupervisionEvent)
    (rest : List ExecutionService.SupervisionEvent)
    (hev : w.exec_events = ev :: rest)
    (hact : AgentService.action_is (r.getField "action") "code" = true)
    (hfail : failing_exec w.settings (str_field r "content" "") ev) :
    ((AgentService.dispatch w s r).2).work_id = s.work_id := by
  have hA := action_is_ne (r.getField "action") "code" "answer" hact (by decide)
  have hC := action_is_ne (r.getField "action") "code" "clarify" hact (by decide)
  have hV := action_is_ne (r.getField "action") "code" "visualize" hact (by decide)
  unfold AgentService.dispatch
  simp only [hA, hC, hV, hact, Bool.false_eq_true, if_false, if_true]
  exact code_path_work_id w s r ev rest hev hfail

/-- Witness for C3: a concrete code action whose execution times out
leaves the concrete working handle untouched. -/
theorem c3_witness :
    exec_fail_world.exec_events = [.timeout] ∧
    AgentService.action_is (code_action.getField "action") "code" = true ∧
    ((AgentService.dispatch exec_fail_world
      { work_id := some 0, next_node := .execute } code_action).2).work_id =
      some 0 := by
  refine ⟨rfl, by decide, ?_⟩
  have h := c3_failed_code_keeps_work_id exec_fail_world
    { work_id := some 0, next_node := .execute } code_action
    .timeout [] rfl (by decide) ?_
  · exact h
  · intro df
    rfl

/-! Claim C5. -/

theorem mem_of_mem_skipWs {c : Char} : ∀ l : List Char, c ∈ skipWs l → c ∈ l := by
  intro l
  induction l with
  | nil => simp [skipWs]
  | cons a t ih =>
    unfold skipWs
    by_cases ha : a = ' ' ∨ a = '\n' ∨ a = '\t' ∨ a = '\r'
    · rw [if_pos ha]
      intro h
      exact List.mem_cons_of_mem a (ih h)
    · rw [if_neg ha]
      exact fun h => h

theorem afterMarker_mem {m : List Char} {c : Char} :
    ∀ (l r : List Char), afterMarker m l = some r → c ∈ r → c ∈ l := by
  intro l
  induction l with
  | nil => intro r h; simp [afterMarker] at h
  | cons a t ih =>
    intro r h hc
    unfold afterMarker at h
    by_cases hp : listPrefixB m (a :: t) = true
    · rw [if_pos hp] at h
      have : r = (a :: t).drop m.length := by
        injection h with h'
        exact h'.symm
      subst this
      exact List.drop_subset _ _ hc
    · rw [if_neg hp] at h
      exact List.mem_cons_of_mem a (ih r h hc)

theorem dropUntilBrace_eq_none {l : List Char} (h : ∀ c ∈ l, c ≠ '{') :
    dropUntilBrace l = none := by
  induction l with
  | nil => rfl
  | cons a t ih =>
    unfold dropUntilBrace
    rw [if_neg (h a (List.mem_cons_self a t))]
    exact ih (fun c hc => h c (List.mem_cons_of_mem a hc))

theorem braceExtract_eq_none {l : List Char} (h : ∀ c ∈ l, c ≠ '{') :
    braceExtract l = none := by
  unfold braceExtract
  rw [dropUntilBrace_eq_none h]

theorem fencedExtract_eq_none {l : List Char} (h : ∀ c ∈ l, c ≠ '{') :
    fencedExtract l = none := by
  rcases ha : afterMarker "```json".data l with _ | rest
  · unfold fencedExtract
    rw [ha]
  · have hstep : fencedExtract l =
        match skipWs rest with
        | c :: t => if c = '{' then Option.map (fun r => c :: r) (fencedBody t)
                    else none
        | [] => none := by
      unfold fencedExtract
      rw [ha]
    rw [hstep]
    rcases hw : skipWs rest with _ | ⟨c, t⟩
    · rfl
    · have hcl : c ∈ l := by
        refine afterMarker_mem l rest ha ?_
        refine mem_of_mem_skipWs rest ?_
        rw [hw]
        exact List.mem_cons_self c t
      simp only []
      rw [if_neg (h c hcl)]

theorem extractTagged_eq_none (raw : String) (h : ∀ c ∈ raw.data, c ≠ '{') :
    extractTagged raw = none := by
  unfold extractTagged
  rw [fencedExtract_eq_none h, braceExtract_eq_none h]

theorem dispatch_answer_verbatim (w : World) (s : AgentState) (raw : String) :
    AgentService.dispatch w s
      (Json.obj [("action", Json.str "answer"), ("content", Json.str raw)]) =
      (w, { s with user_message := raw, error := none, retry_count := 0,
                   next_node := .human_input }) := by
  have hca : ¬ ("content" : String) = "action" := by decide
  have hget : (Json.obj [("action", Json.str "answer"),
      ("content", Json.str raw)]).getField "action" = some (Json.str "answer") := by
    simp [Json.getField, lookupLast, hca]
  have hcontent : str_field (Json.obj [("action", Json.str "answer"),
      ("content", Json.str raw)]) "content" "" = raw := by
    simp [str_field, Json.getField, lookupLast]
  have hans : AgentService.action_is (some (Json.str "answer")) "answer" = true := by
    decide
  unfold AgentService.dispatch
  simp [hget, hcontent, hans]

/-- Claim C5 (amended): a completion text containing no brace character
at all — so neither extraction regex can match — is treated as an
`answer` action verbatim: the raw text becomes the message, the error is
cleared, the retry counter resets, and control goes to `human_input`. -/
theorem c5_braceless_text_is_verbatim_answer (w : World) (s : AgentState)
    (raw : String) (rest : List LLMEvent)
    (hok : w.llm_ok = true)
    (hev : w.llm_events = .completion raw :: rest)
    (hnb : ∀ c ∈ raw.data, c ≠ '{') :
    AgentService.execute w s =
      ({ w with llm_events := rest },
       { s with user_message := raw, error := none, retry_count := 0,
                next_node := .human_input }) := by
  unfold AgentService.execute
  rw [if_neg (show ¬ (w.llm_ok = false) from by rw [hok]; decide)]
  simp only [World.popLLM, hev]
  rw [extractTagged_eq_none raw hnb]
  exact dispatch_answer_verbatim { w with llm_events := rest } s raw

/-- Counterexample for C5 as stated: the completion `ok {oops}` yields no
tagged JSON object (its brace substring `{oops}` is not valid JSON), yet
the orchestrator counts it as a failure — retry bookkeeping, error set,
control looped back to `execute` — instead of answering verbatim. -/
theorem c5_counterexample :
    extractTagged "ok \x7boops\x7d" = some "\x7boops\x7d" ∧
    jsonParse "\x7boops\x7d" = none ∧
    (AgentService.execute parsefail_world
      { work_id := some 0, next_node := .execute }).2.next_node = Node.execute ∧
    (AgentService.execute parsefail_world
      { work_id := some 0, next_node := .execute }).2.retry_count = 1 ∧
    (AgentService.execute parsefail_world
      { work_id := some 0, next_node := .execute }).2.user_message =
      "Connecting to AI... (Retry 1)" ∧
    (AgentService.execute parsefail_world
      { work_id := some 0, next_node := .execute }).2.user_message ≠ "ok \x7boops\x7d" := by
  refine ⟨rfl, rfl, by decide, by decide, by decide, by decide⟩

/-- Witness for the amended C5 at the concrete completion `hello there`. -/
theorem c5_witness :
    (∀ c ∈ ("hello there" : String).data, c ≠ '{') ∧
    AgentService.execute verbatim_world owned_state =
      ({ verbatim_world with llm_events := [] },
       { owned_state with user_message := "hello there", error := none,
                          retry_count := 0, next_node := .human_input }) :=
  ⟨by decide,
   c5_braceless_text_is_verbatim_answer verbatim_world owned_state
     "hello there" [] rfl rfl (by decide)⟩

/-! Claim C2. -/

theorem code_path_fail_eq (w : World) (s : AgentState) (r : Json)
    (ev : ExecutionService.SupervisionEvent)
    (restE : List ExecutionService.SupervisionEvent) (h : Nat) (df : DataFrame)
    (hev : w.exec_events = ev :: restE)
    (hw : s.work_id = some h) (hdf : w.store.get_df h = some df)
    (hfail : failing_exec w.settings (str_field r "content" "") ev) :
    ∃ err, AgentService.code_path w s r =
      ({ w with
            store := (w.store.write_df df).2,
            exec_events := restE },
       { s with
            last_tool := some ⟨"runPythonAnalysis",
              [("script", str_field r "content" ""),
               ("explanation", str_field r "explanation" "")]⟩,
            history := s.history ++
              [⟨"Code: " ++ (str_field r "content" "").take 60 ++ "...",
                w.store.tables.length⟩],
            error := some err,
            retry_count := s.retry_count + 1,
            next_node := if s.retry_count + 1 < s.MAX_RETRIES then Node.execute
              else Node.human_input }) := by
  have hf := hfail df
  rcases hres : (ExecutionService.exec_code w.settings ev
      (str_field r "content" "") df).2.1 with _ | err
  · rw [hres] at hf
    exact absurd hf (by decide)
  · refine ⟨err, ?_⟩
    have hpush : AgentState.push_undo w.store
        { s with
            last_tool := some ⟨"runPythonAnalysis",
              [("script", str_field r "content" ""),
               ("explanation", str_field r "explanation" "")]⟩ }
        ("Code: " ++ (str_field r "content" "").take 60 ++ "...") =
        (⟨w.store.tables ++ [df]⟩,
         { s with
              last_tool := some ⟨"runPythonAnalysis",
                [("script", str_field r "content" ""),
                 ("explanation", str_field r "explanation" "")]⟩,
              history := s.history ++
                [⟨"Code: " ++ (str_field r "content" "").take 60 ++ "...",
                  w.store.tables.length⟩] }) := by
      simp only [AgentState.push_undo, hw, hdf, DiskStore.write_df]
    have hlt : h < w.store.tables.length := by
      unfold DiskStore.get_df at hdf
      exact (List.getElem?_eq_some_iff.mp hdf).1
    simp only [AgentService.code_path]
    rw [hpush]
    have hbind : (some h).bind
        (DiskStore.get_df ⟨w.store.tables ++ [df]⟩) = some df := by
      show (w.store.tables ++ [df])[h]? = some df
      rw [List.getElem?_append_left hlt]
      exact hdf
    rw [show ({ s with
          last_tool := some ⟨"runPythonAnalysis",
            [("script", str_field r "content" ""),
             ("explanation", str_field r "explanation" "")]⟩,
          history := s.history ++
            [⟨"Code: " ++ (str_field r "content" "").take 60 ++ "...",
              w.store.tables.length⟩] } : AgentState).work_id = some h from hw]
    rw [hbind]
    simp only [World.popExec, hev]
    rw [hres]
    rfl

theorem execute_code_fail_step (w : World) (s : AgentState) (r : Json)
    (ev : ExecutionService.SupervisionEvent) (restL : List LLMEvent)
    (restE : List ExecutionService.SupervisionEvent) (h : Nat) (df : DataFrame)
    (hok : w.llm_ok = true)
    (hllm : w.llm_events = .cached r :: restL)
    (hev : w.exec_events = ev :: restE)
    (hact : AgentService.action_is (r.getField "action") "code" = true)
    (hw : s.work_id = some h) (hdf : w.store.get_df h = some df)
    (hfail : failing_exec w.settings (str_field r "content" "") ev) :
    ∃ err, AgentService.execute w s =
      ({ w with
            store := (w.store.write_df df).2,
            llm_events := restL,
            exec_events := restE },
       { s with
            last_tool := some ⟨"runPythonAnalysis",
              [("script", str_field r "content" ""),
               ("explanation", str_field r "explanation" "")]⟩,
            history := s.history ++
              [⟨"Code: " ++ (str_field r "content" "").take 60 ++ "...",
                w.store.tables.length⟩],
            error := some err,
            retry_count := s.retry_count + 1,
            next_node := if s.retry_count + 1 < s.MAX_RETRIES then Node.execute
              else Node.human_input }) := by
  obtain ⟨err, hcp⟩ := code_path_fail_eq { w with llm_events := restL } s r ev restE
    h df hev hw hdf hfail
  refine ⟨err, ?_⟩
  have hA := action_is_ne (r.getField "action") "code" "answer" hact (by decide)
  have hC := action_is_ne (r.getField "action") "code" "clarify" hact (by decide)
  have hV := action_is_ne (r.getField "action") "code" "visualize" hact (by decide)
  unfold AgentService.execute
  rw [if_neg (show ¬ (w.llm_ok = false) from by rw [hok]; decide)]
  simp only [World.popLLM, hllm]
  unfold AgentService.dispatch
  simp only [hA, hC, hV, hact, Bool.false_eq_true, if_false, if_true]
  rw [hcp]

theorem run_from_succ_execute (w : World) (s : AgentState) (n : Nat)
    (hn : s.next_node = Node.execute) :
    AgentService.run_from w s (n + 1) =
      ((AgentService.run_from (AgentService.execute w s).1
          (AgentService.execute w s).2 n).1,
       (AgentService.run_from (AgentService.execute w s).1
          (AgentService.execute w s).2 n).2.1,
       (AgentService.run_from (AgentService.execute w s).1
          (AgentService.execute w s).2 n).2.2 + 1) := by
  rw [AgentService.run_from]
  rw [if_neg (show ¬ (s.next_node = Node.human_input) from by rw [hn]; decide)]
  have hstep : AgentService.step w s = some (AgentService.execute w s) := by
    unfold AgentService.step
    rw [hn]
  rw [hstep]

theorem run_from_at_human (w : World) (s : AgentState) (n : Nat)
    (hn : s.next_node = Node.human_input) :
    AgentService.run_from w s (n + 1) = (w, s, 0) := by
  rw [AgentService.run_from]
  rw [if_pos hn]

/-- Claim C2 (amended): after MAX_RETRIES (3) consecutive execution
errors on the code path in one turn started with a zero counter, control
reaches HUMAN_INPUT with the error recorded in the structured error
field, the user message untouched, and the retry counter left at
MAX_RETRIES (3) — it is *not* reset to 0 on this path. -/
theorem c2_three_code_failures_reach_human_input (w : World) (s : AgentState)
    (r : Json) (ev1 ev2 ev3 : ExecutionService.SupervisionEvent)
    (h : Nat) (df : DataFrame)
    (hok : w.llm_ok = true)
    (hllm : w.llm_events = [.cached r, .cached r, .cached r])
    (hev : w.exec_events = [ev1, ev2, ev3])
    (hact : AgentService.action_is (r.getField "action") "code" = true)
    (hw : s.work_id = some h) (hdf : w.store.get_df h = some df)
    (h0 : s.retry_count = 0) (hmax : s.MAX_RETRIES = 3)
    (hnode : s.next_node = Node.execute)
    (hf1 : failing_exec w.settings (str_field r "content" "") ev1)
    (hf2 : failing_exec w.settings (str_field r "content" "") ev2)
    (hf3 : failing_exec w.settings (str_field r "content" "") ev3) :
    (AgentService.run_cycle w s).2.next_node = Node.human_input ∧
    (AgentService.run_cycle w s).2.retry_count = 3 ∧
    ((AgentService.run_cycle w s).2.error).isSome = true ∧
    (AgentService.run_cycle w s).2.user_message = s.user_message ∧
    AgentService.run_iterations w s = 3 := by
  obtain ⟨e1, h1⟩ := execute_code_fail_step w s r ev1
    [.cached r, .cached r] [ev2, ev3] h df hok hllm hev hact hw hdf hf1
  have hok1 : ((AgentService.execute w s).1).llm_ok = true := by
    rw [h1]; exact hok
  have hllm1 : ((AgentService.execute w s).1).llm_events =
      [.cached r, .cached r] := by rw [h1]
  have hev1 : ((AgentService.execute w s).1).exec_events = [ev2, ev3] := by
    rw [h1]
  have hw1 : ((AgentService.execute w s).2).work_id = some h := by
    rw [h1]; exact hw
  have hdf1 : ((AgentService.execute w s).1).store.get_df h = some df := by
    rw [h1]; exact get_df_write_df w.store h df df hdf
  have hmax1 : ((AgentService.execute w s).2).MAX_RETRIES = 3 := by
    rw [h1]; exact hmax
  have hr1 : ((AgentService.execute w s).2).retry_count = 1 := by
    rw [h1]
    show s.retry_count + 1 = 1
    rw [h0]
  have hu1 : ((AgentService.execute w s).2).user_message = s.user_message := by
    rw [h1]
  have hs1node : ((AgentService.execute w s).2).next_node = Node.execute := by
    rw [h1, h0, hmax]
    rfl
  have hf2' : failing_exec ((AgentService.execute w s).1).settings
      (str_field r "content" "") ev2 := by rw [h1]; exact hf2
  have hf3' : failing_exec ((AgentService.execute w s).1).settings
      (str_field r "content" "") ev3 := by rw [h1]; exact hf3
  obtain ⟨e2, h2⟩ := execute_code_fail_step (AgentService.execute w s).1
    (AgentService.execute w s).2 r ev2 [.cached r] [ev3] h df
    hok1 hllm1 hev1 hact hw1 hdf1 hf2'
  have hok2 : ((AgentService.execute (AgentService.execute w s).1
      (AgentService.execute w s).2).1).llm_ok = true := by
    rw [h2]; exact hok1
  have hllm2 : ((AgentService.execute (AgentService.execute w s).1
      (AgentService.execute w s).2).1).llm_events = [.cached r] := by rw [h2]
  have hev2 : ((AgentService.execute (AgentService.execute w s).1
      (AgentService.execute w s).2).1).exec_events = [ev3] := by rw [h2]
  have hw2 : ((AgentService.execute (AgentService.execute w s).1
      (AgentService.execute w s).2).2).work_id = some h := by
    rw [h2]; exact hw1
  have hdf2 : ((AgentService.execute (AgentService.execute w s).1
      (AgentService.execute w s).2).1).store.get_df h = some df := by
    rw [h2]
    exact get_df_write_df ((AgentService.execute w s).1).store h df df hdf1
  have hmax2 : ((AgentService.execute (AgentService.execute w s).1
      (AgentService.execute w s).2).2).MAX_RETRIES = 3 := by
    rw [h2]; exact hmax1
  have hr2 : ((AgentService.execute (AgentService.execute w s).1
      (AgentService.execute w s).2).2).retry_count = 2 := by
    rw [h2]
    show ((AgentService.execute w s).2).retry_count + 1 = 2
    rw [hr1]
  have hu2 : ((AgentService.execute (AgentService.execute w s).1
      (AgentService.execute w s).2).2).user_message = s.user_message := by
    rw [h2]; exact hu1
  have hs2node : ((AgentService.execute (AgentService.execute w s).1
      (AgentService.execute w s).2).2).next_node = Node.execute := by
    rw [h2, hr1, hmax1]
    rfl
  have hf3'' : failing_exec ((AgentService.execute (AgentService.execute w s).1
      (AgentService.execute w s).2).1).settings
      (str_field r "content" "") ev3 := by rw [h2]; exact hf3'
  obtain ⟨e3, h3⟩ := execute_code_fail_step
    (AgentService.execute (AgentService.execute w s).1
      (AgentService.execute w s).2).1
    (AgentService.execute (AgentService.execute w s).1
      (AgentService.execute w s).2).2 r ev3 [] [] h df
    hok2 hllm2 hev2 hact hw2 hdf2 hf3''
  have hs3node : ((AgentService.execute
      (AgentService.execute (AgentService.execute w s).1
        (AgentService.execute w s).2).1
      (AgentService.execute (AgentService.execute w s).1
        (AgentService.execute w s).2).2).2).next_node = Node.human_input := by
    rw [h3, hr2, hmax2]
    rfl
  have hr3 : ((AgentService.execute
      (AgentService.execute (AgentService.execute w s).1
        (AgentService.execute w s).2).1
      (AgentService.execute (AgentService.execute w s).1
        (AgentService.execute w s).2).2).2).retry_count = 3 := by
    rw [h3]
    show ((AgentService.execute (AgentService.execute w s).1
      (AgentService.execute w s).2).2).retry_count + 1 = 3
    rw [hr2]
  have he3 : (((AgentService.execute
      (AgentService.execute (AgentService.execute w s).1
        (AgentService.execute w s).2).1
      (AgentService.execute (AgentService.execute w s).1
        (AgentService.execute w s).2).2).2).error).isSome = true := by
    rw [h3]
    rfl
  have hu3 : ((AgentService.execute
      (AgentService.execute (AgentService.execute w s).1
        (AgentService.execute w s).2).1
      (AgentService.execute (AgentService.execute w s).1
        (AgentService.execute w s).2).2).2).user_message = s.user_message := by
    rw [h3]; exact hu2
  have hrun : AgentService.run_from w s 20 =
      ((AgentService.execute
        (AgentService.execute (AgentService.execute w s).1
          (AgentService.execute w s).2).1
        (AgentService.execute (AgentService.execute w s).1
          (AgentService.execute w s).2).2).1,
       (AgentService.execute
        (AgentService.execute (AgentService.execute w s).1
          (AgentService.execute w s).2).1
        (AgentService.execute (AgentService.execute w s).1
          (AgentService.execute w s).2).2).2, 3) := by
    rw [run_from_succ_execute w s 19 hnode,
      run_from_succ_execute _ _ 18 hs1node,
      run_from_succ_execute _ _ 17 hs2node,
      run_from_at_human _ _ 16 hs3node]
  refine ⟨?_, ?_, ?_, ?_, ?_⟩
  · show (AgentService.run_from w s 20).2.1.next_node = Node.human_input
    rw [hrun]
    exact hs3node
  · show (AgentService.run_from w s 20).2.1.retry_count = 3
    rw [hrun]
    exact hr3
  · show ((AgentService.run_from w s 20).2.1.error).isSome = true
    rw [hrun]
    exact he3
  · show (AgentService.run_from w s 20).2.1.user_message = s.user_message
    rw [hrun]
    exact hu3
  · show (AgentService.run_from w s 20).2.2 = 3
    rw [hrun]

/-- Counterexample for C2 as stated: a concrete turn with three
consecutive sandbox timeouts ends at `human_input` with the retry
counter at 3, not 0, and the user message untouched. -/
theorem c2_counterexample :
    (AgentService.run_cycle retry_world retry_start).2.next_node =
      Node.human_input ∧
    (AgentService.run_cycle retry_world retry_start).2.retry_count = 3 ∧
    (AgentService.run_cycle retry_world retry_start).2.retry_count ≠ 0 ∧
    (AgentService.run_cycle retry_world retry_start).2.user_message =
      "double it" :=
  ⟨by decide, by decide, by decide, by decide⟩

/-- Witness for the amended C2 at the concrete retry world. -/
theorem c2_witness :
    retry_world.llm_ok = true ∧
    retry_start.retry_count = 0 ∧
    (AgentService.run_cycle retry_world retry_start).2.retry_count = 3 ∧
    AgentService.run_iterations retry_world retry_start = 3 := by
  have T := c2_three_code_failures_reach_human_input retry_world retry_start
    code_action .timeout .timeout .timeout 0 sample_table rfl rfl rfl
    (by decide) rfl rfl rfl rfl rfl (fun df => rfl) (fun df => rfl)
    (fun df => rfl)
  exact ⟨rfl, rfl, T.2.1, T.2.2.2.2⟩

/-! Claim C9. -/

theorem good_node_execute : good_node Node.execute :=
  ⟨fun hc => Node.noConfusion hc, fun hc => Node.noConfusion hc⟩

theorem good_node_eda : good_node Node.eda :=
  ⟨fun hc => Node.noConfusion hc, fun hc => Node.noConfusion hc⟩

theorem good_node_human : good_node Node.human_input :=
  ⟨fun hc => Node.noConfusion hc, fun hc => Node.noConfusion hc⟩

theorem good_node_undo : good_node Node.undo :=
  ⟨fun hc => Node.noConfusion hc, fun hc => Node.noConfusion hc⟩

theorem good_node_export : good_node Node.export' :=
  ⟨fun hc => Node.noConfusion hc, fun hc => Node.noConfusion hc⟩

theorem good_node_ite (c : Prop) [Decidable c] (a b : Node)
    (ha : good_node a) (hb : good_node b) : good_node (if c then a else b) := by
  split
  · exact ha
  · exact hb

theorem except_path_good (s : AgentState) (m : String) :
    good_node (AgentService.except_path s m).next_node :=
  good_node_ite _ _ _ good_node_execute good_node_human

theorem llm_error_path_good (s : AgentState) (m : String) :
    good_node (AgentService.llm_error_path s m).next_node := by
  simp only [AgentService.llm_error_path]
  split
  · exact good_node_execute
  · exact good_node_human

theorem code_path_good (w : World) (s : AgentState) (r : Json) :
    good_node ((AgentService.code_path w s r).2).next_node := by
  simp only [AgentService.code_path]
  split
  · exact except_path_good _ _
  · split
    · exact good_node_ite _ _ _ good_node_execute good_node_human
    · exact good_node_eda

theorem dispatch_good (w : World) (s : AgentState) (r : Json) :
    good_node ((AgentService.dispatch w s r).2).next_node := by
  simp only [AgentService.dispatch]
  split
  · exact good_node_human
  · split
    · exact good_node_human
    · split
      · exact good_node_eda
      · split
        · exact code_path_good _ _ _
        · exact except_path_good _ _

theorem execute_good (w : World) (s : AgentState) :
    good_node ((AgentService.execute w s).2).next_node := by
  simp only [AgentService.execute]
  split
  · exact good_node_human
  · split
    · exact llm_error_path_good _ _
    · exact dispatch_good _ _ _
    · split
      · exact dispatch_good _ _ _
      · split
        · exact dispatch_good _ _ _
        · exact llm_error_path_good _ _

theorem eda_good (w : World) (s : AgentState) :
    good_node ((AgentService.eda w s).2).next_node :=
  good_node_human

theorem undo_node_good (w : World) (s : AgentState) :
    good_node ((AgentService.undo_node w s).2).next_node :=
  good_node_eda

theorem export_node_good (w : World) (s : AgentState) :
    good_node ((AgentService.export_node w s).2).next_node := by
  unfold AgentService.export_node
  split
  · exact good_node_human
  · exact good_node_human

theorem step_good (w : World) (s : AgentState) (p : World × AgentState)
    (hp : AgentService.step w s = some p) : good_node (p.2).next_node := by
  unfold AgentService.step at hp
  rcases hn : s.next_node with _ | _ | _ | _ | _ | _ | _ <;> rw [hn] at hp
  · exact Option.noConfusion hp
  · rw [Option.some.injEq] at hp
    rw [← hp]
    exact eda_good w s
  · exact Option.noConfusion hp
  · rw [Option.some.injEq] at hp
    rw [← hp]
    exact execute_good w s
  · rw [Option.some.injEq] at hp
    rw [← hp]
    exact undo_node_good w s
  · rw [Option.some.injEq] at hp
    rw [← hp]
    exact export_node_good w s
  · exact Option.noConfusion hp

theorem run_from_count_le : ∀ (n : Nat) (w : World) (s : AgentState),
    (AgentService.run_from w s n).2.2 ≤ n := by
  intro n
  induction n with
  | zero => intro w s; exact Nat.le_refl 0
  | succ k ih =>
    intro w s
    rw [AgentService.run_from]
    split
    · exact Nat.zero_le _
    · rcases hstep : AgentService.step w s with _ | p
      · exact Nat.zero_le _
      · exact Nat.succ_le_succ (ih p.1 p.2)

theorem run_from_exit : ∀ (n : Nat) (w : World) (s : AgentState),
    good_node s.next_node →
    ((AgentService.run_from w s n).2.1.next_node = Node.human_input ∨
      (AgentService.run_from w s n).2.2 = n) := by
  intro n
  induction n with
  | zero => intro w s hg; right; rfl
  | succ k ih =>
    intro w s hg
    rw [AgentService.run_from]
    by_cases hh : s.next_node = Node.human_input
    · rw [if_pos hh]
      left
      exact hh
    · rw [if_neg hh]
      rcases hstep : AgentService.step w s with _ | p
      · exfalso
        unfold AgentService.step at hstep
        rcases hn : s.next_node with _ | _ | _ | _ | _ | _ | _ <;>
          rw [hn] at hstep
        · exact hg.1 hn
        · exact Option.noConfusion hstep
        · exact hh hn
        · exact Option.noConfusion hstep
        · exact Option.noConfusion hstep
        · exact Option.noConfusion hstep
        · exact hg.2 hn
      · have hgood : good_node (p.2).next_node := step_good w s p hstep
        rcases ih p.1 p.2 hgood with hca | hcb
        · left
          exact hca
        · right
          show (AgentService.run_from p.1 p.2 k).2.2 + 1 = k + 1
          rw [hcb]

theorem classify_good (s : AgentState) (text : String) :
    good_node (classify s text).next_node := by
  unfold classify
  split
  · exact good_node_undo
  · split
    · exact good_node_export
    · exact good_node_execute

/-- Claim C9: for every environment, state, and instruction, one
orchestrator turn terminates — the transition loop started on the
classified instruction performs at most 20 iterations and returns either
with control at `human_input` or at the iteration ceiling. -/
theorem c9_turn_terminates (w : World) (s : AgentState) (text : String) :
    AgentService.run_iterations w (classify s text) ≤ 20 ∧
    ((AgentService.run_cycle w (classify s text)).2.next_node =
        Node.human_input ∨
      AgentService.run_iterations w (classify s text) = 20) := by
  constructor
  · exact run_from_count_le 20 w (classify s text)
  · exact run_from_exit 20 w (classify s text) (classify_good s text)

end Flowmatics
